import Mathlib

/-!
Verification development for the Smart-To-do-List AI enrichment pipeline
(`backend/ai_service/`).  The Python modules are shallowly embedded:

* machine floats become exact rationals (`ℚ`);
* dictionaries with a fixed key set become structures, a key that may be
  absent becomes an `Option` field;
* the remote completion engine is an oracle: every call site reads one
  field of an `Engine` record, `none` modelling a raised exception or an
  error result from the wrapper;
* `datetime.now().date()` becomes an explicit `today : Date` parameter;
  timestamp metadata fields (`isoformat()` strings) are omitted, no logic
  reads them;
* prompt strings are not modelled: the oracle's answer does not depend on
  them in the embedding, and no control flow inspects a prompt.

Python string helpers (`str.lower`, `in`, `split`, `strip`, `len`) and the
numeric helpers (`round`, `int`) are reimplemented structurally below so
that every definition evaluates by kernel reduction / `simp`.
-/

/-! ### String utilities (structural re-implementations of Python helpers) -/

/-- Python `str.lower()` (restricted to `Char.toLower`, which covers the
ASCII keywords the source matches on). -/
def lowerS (s : String) : String := ⟨s.data.map Char.toLower⟩

/-- Does the character list start with the given pattern? -/
def startsWithL : List Char → List Char → Bool
  | _, [] => true
  | [], _ :: _ => false
  | c :: cs, d :: ds => c = d && startsWithL cs ds

/-- Does `needle` occur contiguously inside `hay`?  Python `needle in hay`
for non-empty needles. -/
def hasSubL (hay needle : List Char) : Bool :=
  startsWithL hay needle ||
    match hay with
    | [] => false
    | _ :: cs => hasSubL cs needle

/-- Python `needle in hay` on strings. -/
def subStr (hay needle : String) : Bool := hasSubL hay.data needle.data

/-- Python `len(s)` (number of characters). -/
def strLen (s : String) : Nat := s.data.length

/-- Helper for `pyWords`: split on whitespace runs, dropping empties. -/
def wordsAux : List Char → List Char → List String
  | [], acc => if acc.isEmpty then [] else [⟨acc.reverse⟩]
  | c :: cs, acc =>
    if c.isWhitespace then
      if acc.isEmpty then wordsAux cs [] else ⟨acc.reverse⟩ :: wordsAux cs []
    else wordsAux cs (c :: acc)

/-- Python `s.split()` with no argument: whitespace-separated words. -/
def pyWords (s : String) : List String := wordsAux s.data []

/-- Python `s.strip()`: drop leading and trailing whitespace. -/
def pyStrip (s : String) : String :=
  ⟨((s.data.dropWhile Char.isWhitespace).reverse.dropWhile Char.isWhitespace).reverse⟩

/-- Python `len(set(a.split()) & set(b.split()))`: number of distinct words
shared by the two strings. -/
def sharedWordCount (a b : String) : Nat :=
  ((pyWords a).dedup.filter (fun w => (pyWords b).contains w)).length

/-- Python `"sep".join(parts)`. -/
def joinSep (sep : String) : List String → String
  | [] => ""
  | [x] => x
  | x :: xs => x ++ sep ++ joinSep sep xs

/-- Index of the first occurrence of a character, Python `s.find(c)`
(`none` for `-1`). -/
def firstIdxL (c : Char) : List Char → Option Nat
  | [] => none
  | d :: ds =>
    if d = c then some 0
    else match firstIdxL c ds with
      | some i => some (i + 1)
      | none => none

/-- Index of the last occurrence of a character, Python `s.rfind(c)`
(`none` for `-1`). -/
def lastIdxL (c : Char) (cs : List Char) : Option Nat :=
  match firstIdxL c cs.reverse with
  | some i => some (cs.length - 1 - i)
  | none => none

/-- Python slice `cs[s:e]`. -/
def sliceL (cs : List Char) (s e : Nat) : List Char := (cs.drop s).take (e - s)

/-- Helper for `parseNatL`: accumulate decimal digits. -/
def digitsToNat : List Char → Nat → Nat
  | [], acc => acc
  | c :: cs, acc => digitsToNat cs (acc * 10 + (c.toNat - 48))

/-- Parse a non-empty all-digit character list as a natural number. -/
def parseNatL (cs : List Char) : Option Nat :=
  if !cs.isEmpty && cs.all Char.isDigit then some (digitsToNat cs 0) else none

/-- Split a character list on a separator character (Python `s.split('-')`:
empty pieces are kept). -/
def splitOnCharL (c : Char) : List Char → List (List Char)
  | [] => [[]]
  | d :: ds =>
    let r := splitOnCharL c ds
    if d = c then [] :: r
    else match r with
      | [] => [[d]]
      | g :: gs => (d :: g) :: gs

/-! ### Numeric utilities (Python rounding semantics) -/

/-- Python `round(q)`: round half to even. -/
def pyRound (q : ℚ) : ℤ :=
  let f := ⌊q⌋
  if q - f < 1/2 then f
  else if q - f > 1/2 then f + 1
  else if f % 2 = 0 then f else f + 1

/-- Python `round(q, 1)`: round to one decimal place, half to even. -/
def round1 (q : ℚ) : ℚ := (pyRound (q * 10) : ℚ) / 10

/-- Python `int(q)`: truncate toward zero. -/
def pyTrunc (q : ℚ) : ℤ := if 0 ≤ q then ⌊q⌋ else -⌊-q⌋

/-! ### Stable descending sort

Python's `list.sort(key=..., reverse=True)` is a stable sort placing larger
keys first; `List.insertionSort` with the relation "my key is at least
yours" is stable in the same way. -/

/-- Stable sort, descending by the rational key `f`. -/
def sortDescBy {α : Type} (f : α → ℚ) (l : List α) : List α :=
  l.insertionSort (fun a b => f b ≤ f a)

/-! ### Calendar dates

Python `datetime.date` values become year/month/day triples; the proleptic
Gregorian rules (`daysInMonth`, leap years) match `datetime`'s. -/

structure Date where
  year : Nat
  month : Nat
  day : Nat
deriving DecidableEq, Repr

/-- Gregorian leap-year rule. -/
def isLeap (y : Nat) : Bool := (y % 4 == 0 && y % 100 != 0) || y % 400 == 0

/-- Number of days in a month. -/
def daysInMonth (y m : Nat) : Nat :=
  if m = 2 then (if isLeap y then 29 else 28)
  else if m = 4 ∨ m = 6 ∨ m = 9 ∨ m = 11 then 30
  else 31

/-- Calendar validity of a year/month/day triple. -/
def validDate (d : Date) : Bool :=
  1 ≤ d.year && 1 ≤ d.month && d.month ≤ 12 &&
    1 ≤ d.day && d.day ≤ daysInMonth d.year d.month

/-- The next calendar day (`+ timedelta(days=1)`). -/
def nextDay (d : Date) : Date :=
  if d.day < daysInMonth d.year d.month then ⟨d.year, d.month, d.day + 1⟩
  else if d.month < 12 then ⟨d.year, d.month + 1, 1⟩
  else ⟨d.year + 1, 1, 1⟩

/-- The previous calendar day (`- timedelta(days=1)`). -/
def prevDay (d : Date) : Date :=
  if 1 < d.day then ⟨d.year, d.month, d.day - 1⟩
  else if 1 < d.month then ⟨d.year, d.month - 1, daysInMonth d.year (d.month - 1)⟩
  else ⟨d.year - 1, 12, 31⟩

/-- Python `d + timedelta(days=k)` for `k ≥ 0`. -/
def addDays (d : Date) : Nat → Date
  | 0 => d
  | n + 1 => nextDay (addDays d n)

/-- Chronological comparison of dates (lexicographic on year, month, day,
which agrees with chronology on the calendar). -/
def dateLeB (a b : Date) : Bool :=
  a.year < b.year ||
    (a.year = b.year && (a.month < b.month ||
      (a.month = b.month && a.day ≤ b.day)))

/-- Strict chronological comparison. -/
def dateLtB (a b : Date) : Bool :=
  a.year < b.year ||
    (a.year = b.year && (a.month < b.month ||
      (a.month = b.month && a.day < b.day)))

/-- Days of the year before the first of the given month. -/
def daysBeforeMonth (y m : Nat) : Nat :=
  let leap : Nat := if isLeap y then 1 else 0
  match m with
  | 1 => 0
  | 2 => 31
  | 3 => 59 + leap
  | 4 => 90 + leap
  | 5 => 120 + leap
  | 6 => 151 + leap
  | 7 => 181 + leap
  | 8 => 212 + leap
  | 9 => 243 + leap
  | 10 => 273 + leap
  | 11 => 304 + leap
  | _ => 334 + leap

/-- Proleptic Gregorian ordinal, `datetime.date.toordinal`
(`0001-01-01 ↦ 1`). -/
def toOrdinal (d : Date) : Nat :=
  let p := d.year - 1
  365 * p + (p / 4 - p / 100) + p / 400 + daysBeforeMonth d.year d.month + d.day

/-- Python `date.weekday()`: Monday = 0 … Sunday = 6. -/
def weekday (d : Date) : Nat := (toOrdinal d + 6) % 7

/-- Source expression `(4 - today.weekday()) % 7`, replaced by 7 when it is
0 ("if today is Friday, use next Friday"). -/
def daysUntilFriday (d : Date) : Nat :=
  let w : ℤ := (4 - (weekday d : ℤ)) % 7
  if w = 0 then 7 else w.toNat

/-- Last day of the current month, computed as the source does: first day
of the next month minus one day. -/
def endOfMonth (d : Date) : Date :=
  if d.month = 12 then prevDay ⟨d.year + 1, 1, 1⟩
  else prevDay ⟨d.year, d.month + 1, 1⟩

/-- Parse `YYYY-MM-DD` as `datetime.strptime(s, '%Y-%m-%d')` does: split on
`-`, require three numeric fields and a valid calendar date;
`none` models the `ValueError` path. -/
def parseDate (s : String) : Option Date :=
  match splitOnCharL '-' s.data with
  | [ys, ms, ds] =>
    match parseNatL ys, parseNatL ms, parseNatL ds with
    | some y, some m, some d =>
      if validDate ⟨y, m, d⟩ && y ≤ 9999 then some ⟨y, m, d⟩ else none
    | _, _, _ => none
  | _ => none

/-! ### `gemini_client.py` — the completion-engine wrapper

`generate_content` either returns text or raises; an outcome is modelled as
`Option String` (`none` = raised).  `generate_structured_response` never
raises: it catches the engine exception, extracts the first-`{`-to-last-`}`
span and hands it to a JSON parser, modelled as a parameter
`jsonLoads : String → Option J` (the JSON grammar itself is external to the
claims; the theorems hold for every parser). -/

namespace Gemini

/-- Left brace character (ASCII 123). -/
def lbrace : Char := Char.ofNat 123

/-- Right brace character (ASCII 125). -/
def rbrace : Char := Char.ofNat 125

/-- Result of `generate_structured_response`: a parsed JSON value, or an
error dictionary `{"error": msg}` optionally carrying
`"raw_response": raw`. -/
inductive SResult (J : Type) where
  | ok (j : J)
  | errorRes (msg : String) (raw : Option String)
deriving DecidableEq, Repr

/-- `GeminiAIService.generate_structured_response`.  `engineText` is the
outcome of the inner `generate_content` call. -/
def generate_structured_response {J : Type} (engineText : Option String)
    (jsonLoads : String → Option J) : SResult J :=
  match engineText with
  | none => .errorRes "engine call raised" none
  | some t =>
    match firstIdxL lbrace t.data, lastIdxL rbrace t.data with
    | some s, some e =>
      let jsonStr : String := ⟨sliceL t.data s (e + 1)⟩
      match jsonLoads jsonStr with
      | some j => .ok j
      | none => .errorRes "Invalid JSON response" (some t)
    | _, _ => .errorRes "No structured data found" (some t)

/-- The keys of the `analysis_prompts` dictionary in `analyze_text`. -/
def analysisTypes : List String :=
  ["extract_tasks", "context_summary", "priority_analysis",
   "workload_analysis", "deadline_suggestions", "categorize",
   "enhance_description", "category_suggestions"]

/-- `GeminiAIService.analyze_text`: raises `ValueError` (the `.error`
branch) for an unknown analysis type, otherwise delegates to
`generate_structured_response`. -/
def analyze_text {J : Type} (engineText : Option String)
    (jsonLoads : String → Option J) (analysisType : String) :
    Except String (SResult J) :=
  if analysisType ∈ analysisTypes then
    .ok (generate_structured_response engineText jsonLoads)
  else
    .error ("Unknown analysis type: " ++ analysisType)

end Gemini

/-! ### Data model shared by the analysis modules -/

/-- Task dictionary handed to the pipeline (`task.get(...)` defaults are
applied at the call sites that use them; a field the source reads with
`task.get(k, '')` is kept as a plain `String`, matching a dict that has the
key). -/
structure TaskDict where
  id : Option Nat
  title : String
  description : String
  category : String
deriving DecidableEq, Repr

/-- Raw deadline dictionary inside an engine response
(`{'date': …, 'reason': …, 'confidence': …, 'urgency_level': …}`). -/
structure RawDeadline where
  date : Option String
  reason : Option String
  confidence : Option ℚ
  urgency_level : Option String
deriving DecidableEq, Repr

/-- Validated deadline candidate produced by
`ContextAnalyzer.generate_deadline_suggestions` and its fallback. -/
structure VDeadline where
  date : Date
  reason : String
  confidence : ℚ
  urgency_level : String
deriving DecidableEq, Repr

/-- Raw category dictionary inside an engine response. -/
structure RawCategory where
  name : Option String
  reason : Option String
  confidence : Option ℚ
  relevance : Option String
deriving DecidableEq, Repr

/-- Validated category candidate produced by
`ContextAnalyzer.generate_category_suggestions` and its fallback. -/
structure VCategory where
  name : String
  reason : String
  confidence : ℚ
  relevance : String
deriving DecidableEq, Repr

/-- Raw task dictionary in an `extract_tasks` engine response. -/
structure RawExtractedTask where
  title : Option String
  description : Option String
  priority : Option String
  deadline : Option String
  category : Option String
  confidence : Option ℚ
deriving DecidableEq, Repr

/-- Task extracted from context, after
`ContextAnalyzer.extract_tasks_from_context` adds its metadata
(`extraction_timestamp` omitted, see file header). -/
structure ExtractedTask where
  title : Option String
  description : Option String
  priority : Option String
  deadline : Option String
  category : Option String
  source : String
  confidence : ℚ
deriving DecidableEq, Repr

/-- Engine response for `priority_analysis`. -/
structure PriorityPatternsResp where
  priority_distribution : List (String × ℚ)
  urgency_level : Option String
  total_indicators : Option ℚ
  insights : Option String
deriving DecidableEq, Repr

/-- Engine response for `workload_analysis`. -/
structure WorkloadResp where
  action_item_count : Option ℚ
  temporal_distribution : List (String × ℚ)
  workload_level : Option String
  insights : Option String
deriving DecidableEq, Repr

/-- Output of `ContextAnalyzer.analyze_priority_patterns` (uniform record
covering the success and failure shapes; the failure branches fill the
defaults shown in the source). -/
structure PriorityInsightsOut where
  priority_distribution : List (String × ℚ)
  urgency_level : String
  total_priority_indicators : ℚ
  insights : String
deriving DecidableEq, Repr

/-- Output of `ContextAnalyzer.analyze_workload`. -/
structure WorkloadOut where
  action_item_count : ℚ
  temporal_distribution : List (String × ℚ)
  workload_level : String
  suggested_deadlines : List VDeadline
  insights : String
deriving DecidableEq, Repr

/-- Output of `ContextAnalyzer.analyze_context` (also the shape the
controller builds when no context data is supplied;
`analysis_timestamp` omitted). -/
structure ContextAnalysis where
  extracted_tasks : List ExtractedTask
  priority_insights : PriorityInsightsOut
  workload_analysis : WorkloadOut
  category_suggestions : List VCategory
  context_summary : String
deriving DecidableEq, Repr

/-- Engine response for `DeadlineSuggester.analyze_task_complexity`. -/
structure ComplexityResp where
  complexity_score : Option ℚ
  estimated_hours : Option ℚ
  subtasks_count : Option ℚ
  skill_level : Option String
  coordination_needed : Option Bool
  research_required : Option Bool
  technical_complexity : Option String
  confidence : Option ℚ
deriving DecidableEq, Repr

/-- Output of `DeadlineSuggester.estimate_time_requirements`. -/
structure TimeReq where
  base_hours : ℚ
  total_hours : ℚ
  complexity_multiplier : ℚ
  coordination_factor : ℚ
  research_factor : ℚ
deriving DecidableEq, Repr

/-- Output of `DeadlineSuggester.analyze_schedule_availability`. -/
structure Schedule where
  workload_level : String
  daily_capacity : ℚ
  existing_task_load : ℚ
  available_capacity : ℚ
  recommended_daily_work : ℚ
deriving DecidableEq, Repr

/-- Output of `DeadlineSuggester.analyze_dependencies` (the `dependencies`
detail dicts are summarised by their count, which is all downstream code
reads). -/
structure DepAnalysis where
  has_dependencies : Bool
  dependency_count : Nat
  estimated_delay_days : Nat
deriving DecidableEq, Repr

/-- Deadline suggestion dictionary built by
`DeadlineSuggester.generate_deadline_suggestions`.  `stype` embeds the
`'type'` key (`type` is reserved in Lean).  The `reasoning` and
`confidence` fields are `Option`s mirroring dictionary keys: the source
always sets `'reasoning'` and never sets `'confidence'` on these dicts,
which the constructions below reflect. -/
structure DSug where
  stype : String
  deadline : Date
  days_from_now : ℤ
  reasoning : Option String
  confidence : Option ℚ
deriving DecidableEq, Repr

/-- Output of `DeadlineSuggester.suggest_deadline`. -/
structure DeadlineResult where
  suggested_deadlines : List DSug
  reasoning : String
  confidence_score : ℚ
  complexity_analysis : Option ComplexityResp
  time_requirements : TimeReq
deriving DecidableEq, Repr

/-- New-category dictionary in a `CategorySuggester` engine response. -/
structure NewCat where
  name : Option String
  description : Option String
  confidence : Option ℚ
  reasoning : Option String
deriving DecidableEq, Repr

/-- Engine response for `CategorySuggester.generate_category_suggestions`. -/
structure CategoryGenResp where
  existing_category_match : Option String
  new_category_suggestions : List NewCat
deriving DecidableEq, Repr

/-- Category suggestion dictionary before ranking (`ctype` embeds the
`'type'` key; the `'description'` key, absent on `existing` entries, is
uniformly `""` there). -/
structure CatSug where
  name : String
  ctype : String
  description : String
  confidence : ℚ
  reasoning : String
deriving DecidableEq, Repr

/-- Category suggestion after `rank_category_suggestions` adds `rank` and
`score`. -/
structure RankedCat where
  name : String
  ctype : String
  description : String
  confidence : ℚ
  reasoning : String
  rank : Nat
  score : ℚ
deriving DecidableEq, Repr

/-- Output of `CategorySuggester.suggest_category`. -/
structure CategoryResult where
  suggested_categories : List RankedCat
  primary_suggestion : Option RankedCat
  reasoning : String
  confidence_score : ℚ
  content_analysis : Option String
deriving DecidableEq, Repr

/-- Actionable-step dictionary in a `TaskEnhancer` engine response (only
`description` is ever read by downstream logic). -/
structure ActionStep where
  step_number : Option ℚ
  description : Option String
deriving DecidableEq, Repr

/-- Output of `TaskEnhancer.enhance_task`. -/
structure EnhancementResult where
  enhanced_description : String
  actionable_steps : List ActionStep
  context_details : Option String
  improvements : List String
  reasoning : String
  confidence_score : ℚ
  task_analysis : Option String
deriving DecidableEq, Repr

/-- Output of `PriorityScorer.calculate_priority_score`. -/
structure PriorityResult where
  priority_score : ℚ
  score_breakdown : List (String × ℚ)
  reasoning : String
  priority_level : String
deriving DecidableEq, Repr

/-- One WhatsApp message in the context payload. -/
structure WaMsg where
  content : Option String
  sender : Option String
deriving DecidableEq, Repr

/-- One e-mail in the context payload. -/
structure EmailMsg where
  subject : Option String
  body : Option String
  sender : Option String
deriving DecidableEq, Repr

/-- One note in the context payload. -/
structure NoteMsg where
  content : Option String
  title : Option String
deriving DecidableEq, Repr

/-- The `context_data` dictionary. -/
structure ContextData where
  content : Option String
  source : Option String
  whatsapp_messages : List WaMsg
  emails : List EmailMsg
  notes : List NoteMsg
deriving DecidableEq, Repr

/-- One entry of `processed['text_content']` (the `timestamp`, `sender` and
`title` metadata are carried in the source but never read by any logic
the claims touch). -/
structure TextItem where
  source : String
  content : String
deriving DecidableEq, Repr

/-- Oracle for the completion engine: one field per call site.  A `none`
models `generate_content` raising (equivalently the wrapper returning an
`{'error': …}` dict, which every call site treats identically); a `some`
carries the successfully parsed structured content, with `Option` fields
for keys the response may lack. -/
structure Engine where
  -- ContextAnalyzer (via analyze_text)
  extractTasksResp : Option (List RawExtractedTask)
  prioPatternsResp : Option PriorityPatternsResp
  workloadResp : Option WorkloadResp
  ctxDeadlinesResp : Option (List RawDeadline)
  ctxCategoriesResp : Option (List RawCategory)
  ctxSummaryResp : Option String
  -- PriorityScorer
  taskCharacteristicsResp : Option String
  urgencyResp : Option (Option ℚ)
  importanceResp : Option (Option ℚ)
  priorityReasoningResp : Option String
  -- DeadlineSuggester
  complexityResp : Option ComplexityResp
  deadlineReasoningResp : Option String
  -- CategorySuggester
  taskContentResp : Option String
  categoryGenResp : Option CategoryGenResp
  categoryReasoningResp : Option String
  -- TaskEnhancer
  taskAnalysisResp : Option String
  enhancedDescriptionResp : Option String
  actionableStepsResp : Option (List ActionStep)
  contextDetailsResp : Option String
  improvementsResp : Option (List String)
  enhancementReasoningResp : Option String
  -- Pipeline controller
  pipelineSummaryResp : Option String
deriving DecidableEq, Repr

/-- The engine behaviour in which every call raises (`EngineError` on every
`generate_content`, hence an error dict from every structured call). -/
def failingEngine : Engine :=
  { extractTasksResp := none, prioPatternsResp := none, workloadResp := none,
    ctxDeadlinesResp := none, ctxCategoriesResp := none, ctxSummaryResp := none,
    taskCharacteristicsResp := none, urgencyResp := none, importanceResp := none,
    priorityReasoningResp := none, complexityResp := none,
    deadlineReasoningResp := none, taskContentResp := none,
    categoryGenResp := none, categoryReasoningResp := none,
    taskAnalysisResp := none, enhancedDescriptionResp := none,
    actionableStepsResp := none, contextDetailsResp := none,
    improvementsResp := none, enhancementReasoningResp := none,
    pipelineSummaryResp := none }

/-! ### `context_analyzer.py` -/

namespace ContextAnalyzer

/-- `ContextAnalyzer.preprocess_context`: flatten the payload into tagged
text items. -/
def preprocess_context (cd : ContextData) : List TextItem :=
  (match cd.content with
   | some c => [{ source := cd.source.getD "manual_input", content := c }]
   | none => []) ++
  cd.whatsapp_messages.map (fun m =>
    { source := "whatsapp", content := m.content.getD "" }) ++
  cd.emails.map (fun e =>
    { source := "email",
      content := "Subject: " ++ e.subject.getD "" ++ "\nBody: " ++ e.body.getD "" }) ++
  cd.notes.map (fun n => { source := "note", content := n.content.getD "" })

/-- The `combined_text` expression repeated in each analysis method:
`"\n\n".join(f"[{source}] {content}")`. -/
def combinedText (items : List TextItem) : String :=
  joinSep "\n\n" (items.map (fun i => "[" ++ i.source ++ "] " ++ i.content))

/-- `ContextAnalyzer.extract_tasks_from_context`. -/
def extract_tasks_from_context (eng : Engine) (items : List TextItem) :
    List ExtractedTask :=
  if pyStrip (combinedText items) = "" then []
  else
    match eng.extractTasksResp with
    | none => []
    | some raws =>
      raws.map (fun t =>
        { title := t.title, description := t.description, priority := t.priority,
          deadline := t.deadline, category := t.category,
          source := "context_analysis", confidence := t.confidence.getD (7/10) })

/-- `ContextAnalyzer.analyze_priority_patterns`. -/
def analyze_priority_patterns (eng : Engine) (items : List TextItem) :
    PriorityInsightsOut :=
  if pyStrip (combinedText items) = "" then
    { priority_distribution := [], urgency_level := "normal",
      total_priority_indicators := 0, insights := "No content to analyze" }
  else
    match eng.prioPatternsResp with
    | none =>
      { priority_distribution := [], urgency_level := "normal",
        total_priority_indicators := 0, insights := "Priority analysis failed" }
    | some r =>
      { priority_distribution := r.priority_distribution,
        urgency_level := r.urgency_level.getD "normal",
        total_priority_indicators := r.total_indicators.getD 0,
        insights := r.insights.getD "AI priority analysis completed" }

/-- Per-candidate validation loop of
`ContextAnalyzer.generate_deadline_suggestions`: parse the date as
`YYYY-MM-DD`, silently discard unparsable or past dates, fill the
`reason`/`confidence`/`urgency_level` defaults. -/
def validateDeadlines (today : Date) : List RawDeadline → List VDeadline
  | [] => []
  | r :: rest =>
    if r.date.getD "" ≠ "" then
      match parseDate (r.date.getD "") with
      | some d =>
        if dateLeB today d then
          { date := d, reason := r.reason.getD "AI suggested deadline",
            confidence := r.confidence.getD (7/10),
            urgency_level := r.urgency_level.getD "medium" } ::
            validateDeadlines today rest
        else validateDeadlines today rest
      | none => validateDeadlines today rest
    else validateDeadlines today rest

/-- The five keyword-pattern candidates of
`ContextAnalyzer._generate_fallback_deadlines`, appended in source order. -/
def patternDeadlines (today : Date) (textContent : String) : List VDeadline :=
  let tl := lowerS textContent
  (if subStr tl "tomorrow" then
    [{ date := addDays today 1,
       reason := "Based on \"tomorrow\" reference in context",
       confidence := 9/10, urgency_level := "high" }] else []) ++
  (if subStr tl "this week" || subStr tl "end of week" then
    [{ date := addDays today (daysUntilFriday today),
       reason := "Based on \"this week\" or \"end of week\" reference",
       confidence := 8/10, urgency_level := "medium" }] else []) ++
  (if subStr tl "next week" then
    [{ date := addDays today 7,
       reason := "Based on \"next week\" reference",
       confidence := 8/10, urgency_level := "medium" }] else []) ++
  (if subStr tl "2 weeks" || subStr tl "two weeks" then
    [{ date := addDays today 14,
       reason := "Based on \"2 weeks\" reference",
       confidence := 7/10, urgency_level := "low" }] else []) ++
  (if subStr tl "end of month" || subStr tl "month end" then
    [{ date := endOfMonth today,
       reason := "Based on \"end of month\" reference",
       confidence := 7/10, urgency_level := "low" }] else [])

/-- Default backfill block of `_generate_fallback_deadlines`: when fewer
than 3 candidates were produced, append the tomorrow / +3-day / +7-day
defaults whose dates are not already present. -/
def backfillDeadlines (today : Date) (l : List VDeadline) : List VDeadline :=
  if l.length < 3 then
    let a :=
      if !(l.any (fun d => d.date = addDays today 1)) then
        l ++ [{ date := addDays today 1, reason := "Default immediate deadline",
                confidence := 6/10, urgency_level := "high" }]
      else l
    let b :=
      if !(a.any (fun d => d.date = addDays today 3)) then
        a ++ [{ date := addDays today 3, reason := "Default short-term deadline",
                confidence := 5/10, urgency_level := "medium" }]
      else a
    if !(b.any (fun d => d.date = addDays today 7)) then
      b ++ [{ date := addDays today 7, reason := "Default medium-term deadline",
              confidence := 4/10, urgency_level := "low" }]
    else b
  else l

/-- `ContextAnalyzer._generate_fallback_deadlines`: keyword patterns,
backfill, sort by confidence descending, keep the top 5. -/
def generate_fallback_deadlines (today : Date) (textContent : String) :
    List VDeadline :=
  (sortDescBy (fun d => d.confidence)
    (backfillDeadlines today (patternDeadlines today textContent))).take 5

/-- `ContextAnalyzer.generate_deadline_suggestions` (the unused
`temporal_data` parameter is dropped; `analyze_workload` always passes
`[]`). -/
def generate_deadline_suggestions (eng : Engine) (today : Date)
    (items : List TextItem) : List VDeadline :=
  let combined := combinedText items
  if pyStrip combined = "" then []
  else
    match eng.ctxDeadlinesResp with
    | none => generate_fallback_deadlines today combined
    | some raws =>
      let validated := validateDeadlines today raws
      if validated.isEmpty then generate_fallback_deadlines today combined
      else (sortDescBy (fun d => d.confidence) validated).take 5

/-- `ContextAnalyzer.analyze_workload`. -/
def analyze_workload (eng : Engine) (today : Date) (items : List TextItem) :
    WorkloadOut :=
  if pyStrip (combinedText items) = "" then
    { action_item_count := 0, temporal_distribution := [],
      workload_level := "normal", suggested_deadlines := [],
      insights := "No content to analyze" }
  else
    match eng.workloadResp with
    | none =>
      { action_item_count := 0, temporal_distribution := [],
        workload_level := "normal", suggested_deadlines := [],
        insights := "Workload analysis failed" }
    | some r =>
      { action_item_count := r.action_item_count.getD 0,
        temporal_distribution := r.temporal_distribution,
        workload_level := r.workload_level.getD "normal",
        suggested_deadlines := generate_deadline_suggestions eng today items,
        insights := r.insights.getD "AI workload analysis completed" }

/-- Per-candidate validation loop of
`ContextAnalyzer.generate_category_suggestions`: strip the name, discard
empty or longer-than-50-character names, fill defaults. -/
def validateCategories : List RawCategory → List VCategory
  | [] => []
  | r :: rest =>
    if pyStrip (r.name.getD "") ≠ "" && strLen (pyStrip (r.name.getD "")) ≤ 50 then
      { name := pyStrip (r.name.getD ""),
        reason := r.reason.getD "AI suggested category",
        confidence := r.confidence.getD (7/10),
        relevance := r.relevance.getD "medium" } :: validateCategories rest
    else validateCategories rest

/-- The five keyword buckets of
`ContextAnalyzer._generate_fallback_categories`, appended in source
order. -/
def bucketCategories (textContent : String) : List VCategory :=
  let tl := lowerS textContent
  (if ["project", "report", "proposal", "document"].any (fun w => subStr tl w) then
    [{ name := "Work", reason := "Based on work-related content",
       confidence := 8/10, relevance := "high" }] else []) ++
  (if ["meeting", "client", "presentation"].any (fun w => subStr tl w) then
    [{ name := "Communication", reason := "Based on communication-related content",
       confidence := 7/10, relevance := "medium" }] else []) ++
  (if ["deadline", "schedule", "plan"].any (fun w => subStr tl w) then
    [{ name := "Planning", reason := "Based on planning and scheduling content",
       confidence := 6/10, relevance := "medium" }] else []) ++
  (if ["home", "family", "personal"].any (fun w => subStr tl w) then
    [{ name := "Personal", reason := "Based on personal content",
       confidence := 7/10, relevance := "high" }] else []) ++
  (if ["health", "exercise", "fitness"].any (fun w => subStr tl w) then
    [{ name := "Health", reason := "Based on health-related content",
       confidence := 8/10, relevance := "high" }] else [])

/-- The three generic default categories of
`_generate_fallback_categories`. -/
def defaultCategories : List VCategory :=
  [{ name := "General", reason := "Default category", confidence := 5/10,
     relevance := "low" },
   { name := "Tasks", reason := "General task category", confidence := 4/10,
     relevance := "low" },
   { name := "Important", reason := "Important items", confidence := 3/10,
     relevance := "low" }]

/-- One iteration of the default-padding loop: append the default category
when still under 5 entries and its name is not already present. -/
def padStep (l : List VCategory) (c : VCategory) : List VCategory :=
  if l.length < 5 && !(l.any (fun x => x.name = c.name)) then l ++ [c] else l

/-- The padding block of `_generate_fallback_categories`. -/
def padCategories (l : List VCategory) : List VCategory :=
  if l.length < 5 then defaultCategories.foldl padStep l else l

/-- `ContextAnalyzer._generate_fallback_categories`. -/
def generate_fallback_categories (textContent : String) : List VCategory :=
  (sortDescBy (fun c => c.confidence)
    (padCategories (bucketCategories textContent))).take 5

/-- `ContextAnalyzer.generate_category_suggestions`. -/
def generate_category_suggestions (eng : Engine) (items : List TextItem) :
    List VCategory :=
  let combined := combinedText items
  if pyStrip combined = "" then []
  else
    match eng.ctxCategoriesResp with
    | none => generate_fallback_categories combined
    | some raws =>
      let validated := validateCategories raws
      if validated.isEmpty then generate_fallback_categories combined
      else (sortDescBy (fun c => c.confidence) validated).take 5

/-- `ContextAnalyzer._generate_fallback_summary`. -/
def generate_fallback_summary (items : List TextItem) : String :=
  match items with
  | [] => "No content to analyze."
  | first :: _ =>
    "Analyzed content from " ++
      toString (items.map (fun i => i.source)).dedup.length ++
      " sources. Sample content: " ++ ⟨first.content.data.take 100⟩ ++ "..."

/-- `ContextAnalyzer.create_context_summary`. -/
def create_context_summary (eng : Engine) (items : List TextItem) : String :=
  if pyStrip (combinedText items) = "" then "No content to analyze."
  else
    match eng.ctxSummaryResp with
    | none => generate_fallback_summary items
    | some s => if pyStrip s ≠ "" then pyStrip s else generate_fallback_summary items

/-- `ContextAnalyzer.analyze_context`: the main context pipeline (its
`except` branch is unreachable in the typed embedding: every step below is
total). -/
def analyze_context (eng : Engine) (today : Date) (cd : ContextData) :
    ContextAnalysis :=
  let items := preprocess_context cd
  { extracted_tasks := extract_tasks_from_context eng items,
    priority_insights := analyze_priority_patterns eng items,
    workload_analysis := analyze_workload eng today items,
    category_suggestions := generate_category_suggestions eng items,
    context_summary := create_context_summary eng items }

end ContextAnalyzer

/-! ### `priority_scorer.py` -/

namespace PriorityScorer

/-- The `scoring_factors` dictionary (insertion order preserved). -/
def scoringFactors : List (String × ℚ) :=
  [("urgency", 3/10), ("importance", 25/100), ("context_relevance", 2/10),
   ("workload_impact", 15/100), ("dependency_factor", 1/10)]

/-- Dictionary lookup `scores[factor]` guarded by `factor in scores`. -/
def lookupScore (scores : List (String × ℚ)) (k : String) : Option ℚ :=
  (scores.find? (fun p => p.1 = k)).map (fun p => p.2)

/-- `PriorityScorer.evaluate_urgency`: clamp the engine score to
`[0, 100]`, default 50 when the call errors or the key is missing. -/
def evaluate_urgency (eng : Engine) : ℚ :=
  match eng.urgencyResp with
  | some (some s) => min 100 (max 0 s)
  | _ => 50

/-- `PriorityScorer.evaluate_importance`. -/
def evaluate_importance (eng : Engine) : ℚ :=
  match eng.importanceResp with
  | some (some s) => min 100 (max 0 s)
  | _ => 50

/-- `PriorityScorer.evaluate_context_relevance`: purely local keyword
matching against the extracted tasks, base 50, capped at 100. -/
def evaluate_context_relevance (task : TaskDict) (ctx : ContextAnalysis) : ℚ :=
  let taskTitle := lowerS task.title
  let taskDesc := lowerS task.description
  let score := ctx.extracted_tasks.foldl (fun (acc : ℚ) et =>
    let etTitle := lowerS (et.title.getD "")
    let etDesc := lowerS (et.description.getD "")
    let acc := if (pyWords taskTitle).any (fun w => (pyWords etTitle).contains w)
      then acc + 20 else acc
    if (pyWords etDesc).any (fun w => subStr taskDesc w) then acc + 15 else acc) 50
  min 100 score

/-- `PriorityScorer.evaluate_workload_impact`: rule-based, higher workload
gives a lower score. -/
def evaluate_workload_impact (workload : WorkloadOut) : ℚ :=
  let base : ℚ :=
    if workload.workload_level = "high" then 30
    else if workload.workload_level = "medium" then 50
    else 70
  let adjusted :=
    if workload.action_item_count > 10 then base - 20
    else if workload.action_item_count > 5 then base - 10
    else base
  max 0 adjusted

/-- Dependency keywords of `PriorityScorer.evaluate_dependencies`. -/
def dependencyKeywordsScorer : List String :=
  ["after", "depends on", "waiting for", "blocked by", "requires"]

/-- `PriorityScorer.evaluate_dependencies`: +20 per keyword found in the
description, base 50, capped at 100. -/
def evaluate_dependencies (task : TaskDict) : ℚ :=
  let taskDesc := lowerS task.description
  let score := dependencyKeywordsScorer.foldl
    (fun (acc : ℚ) kw => if subStr taskDesc kw then acc + 20 else acc) 50
  min 100 score

/-- `PriorityScorer.calculate_weighted_score`: weighted sum over the
factors present in the score dictionary, normalised by the total weight
used. -/
def calculate_weighted_score (scores : List (String × ℚ)) : ℚ :=
  let acc := scoringFactors.foldl (fun (acc : ℚ × ℚ) fw =>
    match lookupScore scores fw.1 with
    | some s => (acc.1 + s * fw.2, acc.2 + fw.2)
    | none => acc) (0, 0)
  if acc.2 > 0 then acc.1 / acc.2 else 50

/-- `PriorityScorer.get_priority_level`: fixed thresholds. -/
def get_priority_level (score : ℚ) : String :=
  if score ≥ 80 then "high"
  else if score ≥ 60 then "medium-high"
  else if score ≥ 40 then "medium"
  else if score ≥ 20 then "low-medium"
  else "low"

/-- `PriorityScorer.calculate_priority_score` (its `analyze_task_characteristics`
step is performed but the result is never read by the source; the
reasoning engine call falls back to a score string). -/
def calculate_priority_score (eng : Engine) (task : TaskDict)
    (ctx : ContextAnalysis) (workload : WorkloadOut) : PriorityResult :=
  let _taskAnalysis := eng.taskCharacteristicsResp
  let urgency := evaluate_urgency eng
  let importance := evaluate_importance eng
  let contextRelevance := evaluate_context_relevance task ctx
  let workloadImpact := evaluate_workload_impact workload
  let dependencyFactor := evaluate_dependencies task
  let breakdown : List (String × ℚ) :=
    [("urgency", urgency), ("importance", importance),
     ("context_relevance", contextRelevance),
     ("workload_impact", workloadImpact),
     ("dependency_factor", dependencyFactor)]
  let finalScore := calculate_weighted_score breakdown
  let fallbackReason := "Priority score: " ++ toString finalScore ++ "/100"
  let reasoning :=
    match eng.priorityReasoningResp with
    | none => fallbackReason
    | some r => if r ≠ "" then r else fallbackReason
  { priority_score := finalScore, score_breakdown := breakdown,
    reasoning := reasoning, priority_level := get_priority_level finalScore }

end PriorityScorer

/-! ### `deadline_suggester.py` -/

namespace DeadlineSuggester

/-- `DeadlineSuggester.estimate_hours_from_task`: keyword-based fallback
estimation. -/
def estimate_hours_from_task (task : TaskDict) : ℚ :=
  let title := lowerS task.title
  let description := lowerS task.description
  let hit (ws : List String) : Bool :=
    ws.any (fun w => subStr title w || subStr description w)
  if hit ["quick", "simple", "basic"] then 1
  else if hit ["review", "check", "verify"] then 2
  else if hit ["create", "build", "develop"] then 4
  else if hit ["complex", "detailed", "comprehensive"] then 6
  else 3

/-- `DeadlineSuggester.estimate_time_requirements`: engine estimate or
keyword fallback, multiplied by coordination / research / complexity
factors; the total is rounded to one decimal. -/
def estimate_time_requirements (task : TaskDict) (ca : Option ComplexityResp) :
    TimeReq :=
  let baseHours : ℚ :=
    match ca with
    | some c =>
      match c.estimated_hours with
      | some h => h
      | none => estimate_hours_from_task task
    | none => estimate_hours_from_task task
  let complexityScore : ℚ :=
    match ca with
    | some c => c.complexity_score.getD 5
    | none => 5
  let coordinationNeeded :=
    match ca with
    | some c => c.coordination_needed.getD false
    | none => false
  let researchRequired :=
    match ca with
    | some c => c.research_required.getD false
    | none => false
  let t1 := if coordinationNeeded then baseHours * (3/2) else baseHours
  let t2 := if researchRequired then t1 * (13/10) else t1
  let complexityMultiplier := 1 + (complexityScore - 5) * (1/10)
  let totalHours := t2 * complexityMultiplier
  { base_hours := baseHours, total_hours := round1 totalHours,
    complexity_multiplier := complexityMultiplier,
    coordination_factor := if coordinationNeeded then 3/2 else 1,
    research_factor := if researchRequired then 13/10 else 1 }

/-- `DeadlineSuggester.analyze_schedule_availability`. -/
def analyze_schedule_availability (workload : WorkloadOut) : Schedule :=
  let workloadLevel := workload.workload_level
  let actionItemCount := workload.action_item_count
  let dailyCapacity : ℚ :=
    if workloadLevel = "high" then 2
    else if workloadLevel = "medium" then 4
    else 6
  let existingTaskLoad := min (actionItemCount * (1/2)) (dailyCapacity * (7/10))
  let availableCapacity := dailyCapacity - existingTaskLoad
  { workload_level := workloadLevel, daily_capacity := dailyCapacity,
    existing_task_load := existingTaskLoad,
    available_capacity := max 0 availableCapacity,
    recommended_daily_work := min availableCapacity 4 }

/-- Dependency keywords of `DeadlineSuggester.analyze_dependencies`. -/
def dependencyKeywordsSuggester : List String :=
  ["after", "depends on", "waiting for", "blocked by", "requires", "following"]

/-- `DeadlineSuggester.tasks_are_related`: at least two distinct common
title words. -/
def tasks_are_related (t1Title t2Title : String) : Bool :=
  2 ≤ sharedWordCount (lowerS t1Title) (lowerS t2Title)

/-- `DeadlineSuggester.analyze_dependencies`: explicit keyword mentions
plus related extracted tasks, one delay day per dependency. -/
def analyze_dependencies (task : TaskDict) (ctx : ContextAnalysis) : DepAnalysis :=
  let taskDesc := lowerS task.description
  let taskTitle := lowerS task.title
  let explicitCount :=
    (dependencyKeywordsSuggester.filter
      (fun kw => subStr taskDesc kw || subStr taskTitle kw)).length
  let implicitCount :=
    (ctx.extracted_tasks.filter
      (fun et => tasks_are_related task.title (et.title.getD ""))).length
  let count := explicitCount + implicitCount
  { has_dependencies := decide (0 < count), dependency_count := count,
    estimated_delay_days := count * 1 }

/-- The `total_days_needed` computation inside
`DeadlineSuggester.generate_deadline_suggestions`. -/
def totalDaysNeeded (tr : TimeReq) (sched : Schedule) (dep : DepAnalysis) : ℤ :=
  let totalHours := tr.total_hours
  let availableCapacity := sched.available_capacity
  let workingDays : ℤ :=
    if availableCapacity > 0 then max 1 (pyRound (totalHours / availableCapacity))
    else max 1 (pyRound (totalHours / 3))
  workingDays + dep.estimated_delay_days

/-- `DeadlineSuggester.generate_deadline_suggestions`: conservative and
realistic deadlines, plus an aggressive one when more than one day is
needed.  Each deadline is `now + timedelta(days=k)` with `k ≥ 1`, so the
non-negative `Int.toNat` conversion is lossless (the dead `except` branch
producing the 3-day fallback is unreachable in the typed embedding). -/
def generate_deadline_suggestions (today : Date) (tr : TimeReq)
    (sched : Schedule) (dep : DepAnalysis) : List DSug :=
  let totalDays := totalDaysNeeded tr sched dep
  let conservativeDays := pyTrunc ((totalDays : ℚ) * (3/2))
  let realisticDays := totalDays
  [{ stype := "conservative", deadline := addDays today conservativeDays.toNat,
     days_from_now := conservativeDays,
     reasoning := some ("Conservative estimate with 50% buffer for " ++
       toString totalDays ++ " working days"),
     confidence := none },
   { stype := "realistic", deadline := addDays today realisticDays.toNat,
     days_from_now := realisticDays,
     reasoning := some ("Realistic estimate based on " ++
       toString tr.total_hours ++ " hours of work"),
     confidence := none }] ++
  (if totalDays > 1 then
    let aggressiveDays := max 1 (pyTrunc ((totalDays : ℚ) * (7/10)))
    [{ stype := "aggressive", deadline := addDays today aggressiveDays.toNat,
       days_from_now := aggressiveDays,
       reasoning := some "Aggressive estimate with 30% reduction in timeline",
       confidence := none }]
  else [])

/-- `DeadlineSuggester.calculate_deadline_confidence`. -/
def calculate_deadline_confidence (suggestions : List DSug) : ℚ :=
  if suggestions.isEmpty then 0
  else
    let c1 : ℚ := 7/10
    let c2 := if 3 ≤ suggestions.length then c1 + 1/10 else c1
    let c3 := if suggestions.any (fun s => s.stype = "realistic") then c2 + 1/10
      else c2
    let c4 := if suggestions.all (fun s => s.reasoning.isSome) then c3 + 1/10
      else c3
    min 1 c4

/-- `DeadlineSuggester.generate_deadline_reasoning`. -/
def generate_deadline_reasoning (eng : Engine) (suggestions : List DSug) :
    String :=
  match suggestions with
  | [] => "Unable to generate deadline suggestions."
  | first :: _ =>
    let realistic := (suggestions.find? (fun s => s.stype = "realistic")).getD first
    match eng.deadlineReasoningResp with
    | none => "Deadline suggestion based on task analysis."
    | some r => if r ≠ "" then r else realistic.reasoning.getD ""

/-- `DeadlineSuggester.suggest_deadline`: the module pipeline. -/
def suggest_deadline (eng : Engine) (today : Date) (task : TaskDict)
    (ctx : ContextAnalysis) (workload : WorkloadOut) : DeadlineResult :=
  let complexityAnalysis := eng.complexityResp
  let timeRequirements := estimate_time_requirements task complexityAnalysis
  let scheduleAnalysis := analyze_schedule_availability workload
  let dependencyAnalysis := analyze_dependencies task ctx
  let suggestions :=
    generate_deadline_suggestions today timeRequirements scheduleAnalysis
      dependencyAnalysis
  { suggested_deadlines := suggestions,
    reasoning := generate_deadline_reasoning eng suggestions,
    confidence_score := calculate_deadline_confidence suggestions,
    complexity_analysis := complexityAnalysis,
    time_requirements := timeRequirements }

end DeadlineSuggester

/-! ### `category_suggester.py` -/

namespace CategorySuggester

/-- `CategorySuggester.generate_category_suggestions`: an existing-category
match (Python truthiness: present and non-empty) plus the new-category
suggestions, defaults filled. -/
def generate_category_suggestions (eng : Engine) : List CatSug :=
  match eng.categoryGenResp with
  | none => []
  | some r =>
    (match r.existing_category_match with
     | some s =>
       if s ≠ "" then
         [{ name := s, ctype := "existing", description := "",
            confidence := 9/10, reasoning := "Matches existing category" }]
       else []
     | none => []) ++
    r.new_category_suggestions.map (fun nc =>
      { name := nc.name.getD "", ctype := "new",
        description := nc.description.getD "",
        confidence := nc.confidence.getD (7/10),
        reasoning := nc.reasoning.getD "AI suggested category" })

/-- `CategorySuggester.rank_category_suggestions`: stable sort by
confidence descending, then attach `rank`/`score`. -/
def rank_category_suggestions (suggestions : List CatSug) : List RankedCat :=
  if suggestions.isEmpty then []
  else
    ((sortDescBy (fun s => s.confidence) suggestions).enum).map (fun p =>
      { name := p.2.name, ctype := p.2.ctype, description := p.2.description,
        confidence := p.2.confidence, reasoning := p.2.reasoning,
        rank := p.1 + 1, score := p.2.confidence })

/-- `CategorySuggester.calculate_category_confidence`: highest candidate
confidence, boosted for ≥3 candidates and for an existing-category match,
capped at 1. -/
def calculate_category_confidence (suggestions : List RankedCat) : ℚ :=
  match suggestions with
  | [] => 0
  | first :: rest =>
    let maxConfidence := rest.foldl (fun a s => max a s.confidence)
      first.confidence
    let c2 := if 3 ≤ suggestions.length then maxConfidence + 1/10
      else maxConfidence
    let c3 := if suggestions.any (fun s => s.ctype = "existing") then c2 + 1/10
      else c2
    min 1 c3

/-- `CategorySuggester.generate_category_reasoning`. -/
def generate_category_reasoning (eng : Engine) (suggestions : List RankedCat) :
    String :=
  match suggestions with
  | [] => "No category suggestions available."
  | primary :: _ =>
    match eng.categoryReasoningResp with
    | none => "Category suggestion based on task analysis."
    | some r => if r ≠ "" then r else primary.reasoning

/-- `CategorySuggester.suggest_category` (the controller always calls it
without `existing_categories`, which only feeds the prompt). -/
def suggest_category (eng : Engine) : CategoryResult :=
  let contentAnalysis := eng.taskContentResp
  let suggestions := generate_category_suggestions eng
  let ranked := rank_category_suggestions suggestions
  { suggested_categories := ranked, primary_suggestion := ranked.head?,
    reasoning := generate_category_reasoning eng ranked,
    confidence_score := calculate_category_confidence ranked,
    content_analysis := contentAnalysis }

end CategorySuggester

/-! ### `task_enhancer.py` -/

namespace TaskEnhancer

/-- `TaskEnhancer.generate_enhanced_description`: the engine text, or the
original description when the call raises or returns an empty string. -/
def generate_enhanced_description (eng : Engine) (task : TaskDict) : String :=
  match eng.enhancedDescriptionResp with
  | none => task.description
  | some r => if r ≠ "" then r else task.description

/-- `TaskEnhancer.suggest_actionable_steps` (`none` covers both an error
result and a response missing the `actionable_steps` key). -/
def suggest_actionable_steps (eng : Engine) : List ActionStep :=
  eng.actionableStepsResp.getD []

/-- `TaskEnhancer.calculate_enhancement_confidence`: base 0.5, +0.2 for a
long description, +0.2 for any step, +0.1 for a detailed step, capped
at 1. -/
def calculate_enhancement_confidence (enhancedDescription : String)
    (steps : List ActionStep) : ℚ :=
  let c1 : ℚ := 5/10
  let c2 := if enhancedDescription ≠ "" && strLen enhancedDescription > 50
    then c1 + 2/10 else c1
  let c3 := if !steps.isEmpty && steps.length > 0 then c2 + 2/10 else c2
  let detailedSteps := (steps.filter
    (fun s => strLen (s.description.getD "") > 20)).length
  let c4 := if !steps.isEmpty && detailedSteps > 0 then c3 + 1/10 else c3
  min 1 c4

/-- `TaskEnhancer.generate_enhancement_reasoning`. -/
def generate_enhancement_reasoning (eng : Engine) : String :=
  match eng.enhancementReasoningResp with
  | none => "Task description was enhanced for clarity and completeness."
  | some r =>
    if r ≠ "" then r
    else "Task description was enhanced for clarity and completeness."

/-- `TaskEnhancer.enhance_task`: the module pipeline (the controller always
passes a non-empty context dict, so `add_context_details` reduces to its
engine call). -/
def enhance_task (eng : Engine) (task : TaskDict) : EnhancementResult :=
  let taskAnalysis := eng.taskAnalysisResp
  let enhancedDescription := generate_enhanced_description eng task
  let steps := suggest_actionable_steps eng
  { enhanced_description := enhancedDescription, actionable_steps := steps,
    context_details := eng.contextDetailsResp,
    improvements := eng.improvementsResp.getD [],
    reasoning := generate_enhancement_reasoning eng,
    confidence_score := calculate_enhancement_confidence enhancedDescription steps,
    task_analysis := taskAnalysis }

end TaskEnhancer

/-! ### `pipeline_controller.py` -/

namespace PipelineController

/-- Recommendations block of the result bundle. -/
structure Recommendations where
  enhanced_description : String
  suggested_category : Option RankedCat
  priority_level : String
  suggested_deadline : Option DSug
  actionable_steps : List ActionStep
deriving DecidableEq, Repr

/-- The `detailed_analysis` block of the result bundle. -/
structure DetailedAnalysis where
  context_analysis : ContextAnalysis
  task_enhancement : EnhancementResult
  category_suggestion : CategoryResult
  priority_analysis : PriorityResult
  deadline_suggestion : DeadlineResult
deriving DecidableEq, Repr

/-- The bundle returned by `AIPipelineController.compile_results`
(`timestamp` omitted). -/
structure Bundle where
  task_id : Option Nat
  task_title : String
  pipeline_status : String
  overall_confidence : ℚ
  summary : String
  recommendations : Recommendations
  detailed_analysis : DetailedAnalysis
deriving DecidableEq, Repr

/-- `AIPipelineController.analyze_context`: the controller-level wrapper
that substitutes a default analysis when no context data is supplied. -/
def analyze_context (eng : Engine) (today : Date) (cd : Option ContextData) :
    ContextAnalysis :=
  match cd with
  | none =>
    { extracted_tasks := [],
      priority_insights :=
        { priority_distribution := [], urgency_level := "normal",
          total_priority_indicators := 0, insights := "" },
      workload_analysis :=
        { action_item_count := 0, temporal_distribution := [],
          workload_level := "normal", suggested_deadlines := [],
          insights := "" },
      category_suggestions := [],
      context_summary := "No context data provided" }
  | some c => ContextAnalyzer.analyze_context eng today c

/-- `AIPipelineController.generate_pipeline_summary`: when there is no
primary category suggestion, the `None.get('name', …)` access raises and
the `except` branch returns the short fallback string; otherwise the
engine produces the summary with a formatted fallback. -/
def generate_pipeline_summary (eng : Engine) (task : TaskDict)
    (cat : CategoryResult) (pri : PriorityResult) : String :=
  match cat.primary_suggestion with
  | none => "AI analysis completed for task: " ++ task.title
  | some primary =>
    match eng.pipelineSummaryResp with
    | none => "AI analysis completed for task: " ++ task.title
    | some r =>
      if r ≠ "" then r
      else "AI analysis completed for '" ++ task.title ++ "'. Priority: " ++
        pri.priority_level ++ ", Category: " ++ primary.name ++ "."

/-- `AIPipelineController.compile_results`: overall confidence is the mean
of the enhancement confidence, the category confidence, the priority score
normalised to `[0,1]`, and the deadline module's confidence score.  The
`except` branch producing `completed_with_errors` is unreachable in the
typed embedding: every computation below is total. -/
def compile_results (eng : Engine) (task : TaskDict) (ctx : ContextAnalysis)
    (enh : EnhancementResult) (cat : CategoryResult) (pri : PriorityResult)
    (dl : DeadlineResult) : Bundle :=
  let confidenceScores : List ℚ :=
    [enh.confidence_score, cat.confidence_score, pri.priority_score / 100,
     dl.confidence_score]
  let overall := confidenceScores.sum / confidenceScores.length
  { task_id := task.id, task_title := task.title,
    pipeline_status := "completed", overall_confidence := overall,
    summary := generate_pipeline_summary eng task cat pri,
    recommendations :=
      { enhanced_description := enh.enhanced_description,
        suggested_category := cat.primary_suggestion,
        priority_level := pri.priority_level,
        suggested_deadline := dl.suggested_deadlines.head?,
        actionable_steps := enh.actionable_steps },
    detailed_analysis :=
      { context_analysis := ctx, task_enhancement := enh,
        category_suggestion := cat, priority_analysis := pri,
        deadline_suggestion := dl } }

/-- `AIPipelineController.process_new_task` for a well-formed task dict.
A non-dict task raises `AttributeError` inside every `except` handler in
the source (each handler itself calls `task.get`), so the exception
reaches the caller; `process_new_task_checked` below models that. -/
def process_new_task (eng : Engine) (today : Date) (task : TaskDict)
    (cd : Option ContextData) : Bundle :=
  let ctx := analyze_context eng today cd
  let enh := TaskEnhancer.enhance_task eng task
  let cat := CategorySuggester.suggest_category eng
  let pri := PriorityScorer.calculate_priority_score eng task ctx
    ctx.workload_analysis
  let dl := DeadlineSuggester.suggest_deadline eng today task ctx
    ctx.workload_analysis
  compile_results eng task ctx enh cat pri dl

/-- A task argument as received over the wire: either a dict or a value on
which `task.get` raises (modelled by the error message of the eventual
`AttributeError`). -/
@[reducible] def TaskInput : Type := Except String TaskDict

/-- `AIPipelineController.process_new_task` on an arbitrary task argument:
an invalid task makes the call raise (the `pipeline_status='failed'`
dictionary of its `except` handler is dead code, since the handler's own
`task.get('id')` re-raises first). -/
def process_new_task_checked (eng : Engine) (today : Date) (ti : TaskInput)
    (cd : Option ContextData) : Except String Bundle :=
  match ti with
  | .error e => .error e
  | .ok task => .ok (process_new_task eng today task cd)

/-- Body of `AIPipelineController.process_single_task_with_context` for a
well-formed task dict: enhancement, category, priority and deadline over
the shared context analysis, compiled into one bundle. -/
def process_single_task (eng : Engine) (today : Date) (task : TaskDict)
    (ctx : ContextAnalysis) : Bundle :=
  compile_results eng task ctx
    (TaskEnhancer.enhance_task eng task)
    (CategorySuggester.suggest_category eng)
    (PriorityScorer.calculate_priority_score eng task ctx
      ctx.workload_analysis)
    (DeadlineSuggester.suggest_deadline eng today task ctx
      ctx.workload_analysis)

/-- `AIPipelineController.process_single_task_with_context` on an arbitrary
task argument (same dead-handler cascade as above). -/
def process_single_task_with_context (eng : Engine) (today : Date)
    (ti : TaskInput) (ctx : ContextAnalysis) : Except String Bundle :=
  match ti with
  | .error e => .error e
  | .ok task => .ok (process_single_task eng today task ctx)

/-- The per-task loop of `AIPipelineController.batch_process_tasks`.  The
per-task `except` handler cannot recover from the only exception that can
occur (its own `task.get(...)` re-raises), so the exception short-circuits
the loop. -/
def batchLoop (eng : Engine) (today : Date) (ctx : ContextAnalysis) :
    List TaskInput → Except String (List Bundle)
  | [] => .ok []
  | ti :: rest =>
    match process_single_task_with_context eng today ti ctx with
    | .error e => .error e
    | .ok b =>
      match batchLoop eng today ctx rest with
      | .error e => .error e
      | .ok bs => .ok (b :: bs)

/-- `AIPipelineController.batch_process_tasks`: analyze context once, then
process each task with the shared analysis; the outer `except` turns any
escaped exception into an empty result list. -/
def batch_process_tasks (eng : Engine) (today : Date) (tis : List TaskInput)
    (cd : Option ContextData) : List Bundle :=
  let ctx := analyze_context eng today cd
  match batchLoop eng today ctx tis with
  | .ok bs => bs
  | .error _ => []

end PipelineController

/-- The default context analysis `AIPipelineController.analyze_context`
substitutes when `context_data` is `None` (the literal of that branch,
repeated here so concrete pipeline runs can name it). -/
def noContextAnalysis : ContextAnalysis :=
  { extracted_tasks := [],
    priority_insights :=
      { priority_distribution := [], urgency_level := "normal",
        total_priority_indicators := 0, insights := "" },
    workload_analysis :=
      { action_item_count := 0, temporal_distribution := [],
        workload_level := "normal", suggested_deadlines := [], insights := "" },
    category_suggestions := [],
    context_summary := "No context data provided" }

/-! ### Spec-side definitions used for refinement comparisons -/

/-- The per-candidate category normalizer exactly as the specification
states it (§4.3): discard when the stripped name is empty or longer than
50 characters, otherwise fill the `reason` / `confidence` / `relevance`
defaults.  Compared against `ContextAnalyzer.validateCategories` below. -/
def normalizeCategory (r : RawCategory) : Option VCategory :=
  if pyStrip (r.name.getD "") ≠ "" && strLen (pyStrip (r.name.getD "")) ≤ 50 then
    some { name := pyStrip (r.name.getD ""),
           reason := r.reason.getD "AI suggested category",
           confidence := r.confidence.getD (7/10),
           relevance := r.relevance.getD "medium" }
  else none

/-- Overall confidence as the specification's sentence reads: the
arithmetic mean of the enhancement confidence, the category confidence,
the priority score over 100, and the top deadline candidate's own
confidence (0 when there is no candidate; the deadline suggester's
candidate dicts carry no `confidence` key, so a present candidate also
reads as 0 via `Option.getD`).  Compared against the bundle's
`overall_confidence` below. -/
def specMeanWithTopCandidate (enh : EnhancementResult) (cat : CategoryResult)
    (pri : PriorityResult) (dl : DeadlineResult) : ℚ :=
  let topCandidate : ℚ :=
    match dl.suggested_deadlines with
    | [] => 0
    | c :: _ => c.confidence.getD 0
  (enh.confidence_score + cat.confidence_score + pri.priority_score / 100 +
    topCandidate) / 4

/-! ### Supporting lemmas: sorting -/

theorem pairwise_sortDescBy {α : Type} (f : α → ℚ) (l : List α) :
    (sortDescBy f l).Pairwise (fun a b => f b ≤ f a) := by
  haveI : IsTotal α (fun a b => f b ≤ f a) := ⟨fun a b => le_total (f b) (f a)⟩
  haveI : IsTrans α (fun a b => f b ≤ f a) :=
    ⟨fun a b c h1 h2 => le_trans h2 h1⟩
  exact List.sorted_insertionSort _ l

theorem mem_sortDescBy {α : Type} (f : α → ℚ) (l : List α) (x : α) :
    x ∈ sortDescBy f l ↔ x ∈ l :=
  (List.perm_insertionSort _ l).mem_iff

theorem length_sortDescBy {α : Type} (f : α → ℚ) (l : List α) :
    (sortDescBy f l).length = l.length :=
  (List.perm_insertionSort _ l).length_eq

theorem pairwise_sortDescBy_take {α : Type} (f : α → ℚ) (l : List α) (n : Nat) :
    ((sortDescBy f l).take n).Pairwise (fun a b => f b ≤ f a) :=
  (pairwise_sortDescBy f l).sublist (List.take_sublist n _)

theorem mem_of_mem_sortDescBy_take {α : Type} {f : α → ℚ} {l : List α}
    {n : Nat} {x : α} (h : x ∈ (sortDescBy f l).take n) : x ∈ l :=
  (mem_sortDescBy f l x).mp (List.mem_of_mem_take h)

/-! ### Supporting lemmas: dates -/

theorem dateLeB_iff (a b : Date) : dateLeB a b = true ↔
    a.year < b.year ∨ (a.year = b.year ∧ (a.month < b.month ∨
      (a.month = b.month ∧ a.day ≤ b.day))) := by
  simp [dateLeB]

theorem dateLtB_iff (a b : Date) : dateLtB a b = true ↔
    a.year < b.year ∨ (a.year = b.year ∧ (a.month < b.month ∨
      (a.month = b.month ∧ a.day < b.day))) := by
  simp [dateLtB]

theorem validDate_iff (d : Date) : validDate d = true ↔
    1 ≤ d.year ∧ 1 ≤ d.month ∧ d.month ≤ 12 ∧ 1 ≤ d.day ∧
      d.day ≤ daysInMonth d.year d.month := by
  simp [validDate, and_assoc]

theorem daysInMonth_pos (y m : Nat) : 1 ≤ daysInMonth y m := by
  unfold daysInMonth
  split_ifs <;> omega

theorem dateLeB_refl (d : Date) : dateLeB d d = true := by
  simp [dateLeB]

theorem dateLeB_trans {a b c : Date} (h1 : dateLeB a b = true)
    (h2 : dateLeB b c = true) : dateLeB a c = true := by
  rw [dateLeB_iff] at *
  omega

theorem dateLeB_of_ltB {a b : Date} (h : dateLtB a b = true) :
    dateLeB a b = true := by
  rw [dateLtB_iff] at h
  rw [dateLeB_iff]
  omega

theorem dateLeB_ltB_trans {a b c : Date} (h1 : dateLeB a b = true)
    (h2 : dateLtB b c = true) : dateLtB a c = true := by
  rw [dateLeB_iff] at h1
  rw [dateLtB_iff] at *
  omega

theorem dateLtB_nextDay (d : Date) : dateLtB d (nextDay d) = true := by
  unfold nextDay
  split_ifs <;> rw [dateLtB_iff] <;> simp <;> omega

theorem dateLeB_addDays (d : Date) (k : Nat) :
    dateLeB d (addDays d k) = true := by
  induction k with
  | zero => exact dateLeB_refl d
  | succ n ih =>
    exact dateLeB_trans ih (dateLeB_of_ltB (dateLtB_nextDay (addDays d n)))

theorem dateLtB_addDays (d : Date) {k : Nat} (hk : 1 ≤ k) :
    dateLtB d (addDays d k) = true := by
  obtain ⟨n, rfl⟩ : ∃ n, k = n + 1 := ⟨k - 1, by omega⟩
  exact dateLeB_ltB_trans (dateLeB_addDays d n) (dateLtB_nextDay (addDays d n))

theorem valid_nextDay {d : Date} (h : validDate d = true) :
    validDate (nextDay d) = true := by
  rw [validDate_iff] at h
  unfold nextDay
  split_ifs with h1 h2
  · rw [validDate_iff]
    simp only
    omega
  · rw [validDate_iff]
    have := daysInMonth_pos d.year (d.month + 1)
    simp only
    omega
  · rw [validDate_iff]
    have := daysInMonth_pos (d.year + 1) 1
    simp only
    omega

theorem valid_addDays {d : Date} (k : Nat) (h : validDate d = true) :
    validDate (addDays d k) = true := by
  induction k with
  | zero => exact h
  | succ n ih => exact valid_nextDay ih

theorem daysInMonth_twelve (y : Nat) : daysInMonth y 12 = 31 := by
  norm_num [daysInMonth]

theorem dateLeB_endOfMonth {d : Date} (h : validDate d = true) :
    dateLeB d (endOfMonth d) = true := by
  rw [validDate_iff] at h
  by_cases hm : d.month = 12
  · have he : endOfMonth d = ⟨d.year, 12, 31⟩ := by
      simp [endOfMonth, prevDay, hm]
    rw [hm] at h
    rw [he, dateLeB_iff]
    have h31 := daysInMonth_twelve d.year
    dsimp only
    omega
  · have hm1 : 1 < d.month + 1 := by omega
    have he : endOfMonth d = ⟨d.year, d.month, daysInMonth d.year d.month⟩ := by
      simp [endOfMonth, prevDay, hm, hm1]
    rw [he, dateLeB_iff]
    dsimp only
    omega

theorem valid_endOfMonth {d : Date} (h : validDate d = true) :
    validDate (endOfMonth d) = true := by
  rw [validDate_iff] at h
  by_cases hm : d.month = 12
  · have he : endOfMonth d = ⟨d.year, 12, 31⟩ := by
      simp [endOfMonth, prevDay, hm]
    rw [he, validDate_iff]
    have h31 := daysInMonth_twelve d.year
    dsimp only
    omega
  · have hm1 : 1 < d.month + 1 := by omega
    have he : endOfMonth d = ⟨d.year, d.month, daysInMonth d.year d.month⟩ := by
      simp [endOfMonth, prevDay, hm, hm1]
    rw [he, validDate_iff]
    have := daysInMonth_pos d.year d.month
    dsimp only
    omega

theorem parseDate_valid {s : String} {d : Date} (h : parseDate s = some d) :
    validDate d = true := by
  unfold parseDate at h
  split at h
  · split at h
    · split at h
      · simp only [Option.some.injEq] at h
        subst h
        rename_i hcond
        exact (Bool.and_eq_true _ _).mp hcond |>.1
      · exact absurd h (by simp)
    · exact absurd h (by simp)
  · exact absurd h (by simp)

/-! ### Supporting lemmas: conditional list membership -/

theorem mem_if_singleton {α : Type} {b : Prop} [Decidable b] {x c : α}
    (h : c ∈ (if b then [x] else [])) : c = x := by
  split at h <;> simp_all

theorem forall_mem_ite_append {α : Type} {P : α → Prop} {l : List α} {x : α}
    {b : Prop} [Decidable b] (hl : ∀ a ∈ l, P a) (hx : P x) :
    ∀ a ∈ (if b then l ++ [x] else l), P a := by
  intro a ha
  split at ha
  · rcases List.mem_append.mp ha with h | h
    · exact hl a h
    · simp at h
      subst h
      exact hx
  · exact hl a ha

theorem forall_mem_ite_nil {α : Type} {P : α → Prop} {x : α} {b : Prop}
    [Decidable b] (hx : P x) : ∀ a ∈ (if b then [x] else []), P a := by
  intro a ha
  split at ha
  · rw [List.mem_singleton] at ha
    subst ha
    exact hx
  · simp at ha

/-! ### Supporting lemmas: the context analyzer's deadline candidates -/

theorem validateDeadlines_mem {today : Date} {raws : List RawDeadline}
    {c : VDeadline} (h : c ∈ ContextAnalyzer.validateDeadlines today raws) :
    validDate c.date = true ∧ dateLeB today c.date = true := by
  induction raws with
  | nil => simp [ContextAnalyzer.validateDeadlines] at h
  | cons r rest ih =>
    rw [ContextAnalyzer.validateDeadlines] at h
    split at h
    · split at h
      · rename_i d heq
        split at h
        · rename_i hle
          rcases List.mem_cons.mp h with rfl | hmem
          · exact ⟨parseDate_valid heq, hle⟩
          · exact ih hmem
        · exact ih h
      · exact ih h
    · exact ih h

theorem patternDeadlines_good {today : Date} (hv : validDate today = true)
    (text : String) :
    ∀ c ∈ ContextAnalyzer.patternDeadlines today text,
      validDate c.date = true ∧ dateLeB today c.date = true := by
  unfold ContextAnalyzer.patternDeadlines
  dsimp only
  rw [List.forall_mem_append, List.forall_mem_append, List.forall_mem_append,
    List.forall_mem_append]
  refine ⟨⟨⟨⟨?_, ?_⟩, ?_⟩, ?_⟩, ?_⟩ <;> (apply forall_mem_ite_nil; dsimp only)
  · exact ⟨valid_addDays 1 hv, dateLeB_addDays today 1⟩
  · exact ⟨valid_addDays _ hv, dateLeB_addDays today _⟩
  · exact ⟨valid_addDays 7 hv, dateLeB_addDays today 7⟩
  · exact ⟨valid_addDays 14 hv, dateLeB_addDays today 14⟩
  · exact ⟨valid_endOfMonth hv, dateLeB_endOfMonth hv⟩

theorem backfillDeadlines_good {today : Date} {l : List VDeadline}
    (hv : validDate today = true)
    (hl : ∀ x ∈ l, validDate x.date = true ∧ dateLeB today x.date = true) :
    ∀ c ∈ ContextAnalyzer.backfillDeadlines today l,
      validDate c.date = true ∧ dateLeB today c.date = true := by
  intro c hc
  rw [ContextAnalyzer.backfillDeadlines] at hc
  split at hc
  · dsimp only at hc
    refine forall_mem_ite_append (forall_mem_ite_append
      (forall_mem_ite_append hl ?_) ?_) ?_ c hc <;> dsimp only
    · exact ⟨valid_addDays 1 hv, dateLeB_addDays today 1⟩
    · exact ⟨valid_addDays 3 hv, dateLeB_addDays today 3⟩
    · exact ⟨valid_addDays 7 hv, dateLeB_addDays today 7⟩
  · exact hl c hc

theorem fallback_deadlines_good {today : Date} (hv : validDate today = true)
    (text : String) :
    ∀ c ∈ ContextAnalyzer.generate_fallback_deadlines today text,
      validDate c.date = true ∧ dateLeB today c.date = true := by
  intro c hc
  exact backfillDeadlines_good hv (patternDeadlines_good hv text) c
    (mem_of_mem_sortDescBy_take hc)

theorem fallback_deadlines_sorted (today : Date) (text : String) :
    (ContextAnalyzer.generate_fallback_deadlines today text).Pairwise
      (fun a b => b.confidence ≤ a.confidence) :=
  pairwise_sortDescBy_take _ _ 5

theorem fallback_deadlines_length (today : Date) (text : String) :
    (ContextAnalyzer.generate_fallback_deadlines today text).length ≤ 5 :=
  List.length_take_le 5 _

/-- C1: every deadline candidate surfaced by the context analyzer's
normalization — from an engine response or from the keyword fallback — has
a calendar-valid `YYYY-MM-DD` date that is on or after the current date
(unparsable or past dates are silently discarded), the list is sorted by
confidence descending with at most 5 candidates retained, and absent
fields are filled with the defaults `confidence = 0.7` and
`reason = "AI suggested deadline"`. -/
theorem c1_deadline_candidate_invariants (eng : Engine) (today : Date)
    (hv : validDate today = true) (items : List TextItem) :
    (∀ c ∈ ContextAnalyzer.generate_deadline_suggestions eng today items,
       validDate c.date = true ∧ dateLeB today c.date = true) ∧
    (ContextAnalyzer.generate_deadline_suggestions eng today items).Pairwise
      (fun a b => b.confidence ≤ a.confidence) ∧
    (ContextAnalyzer.generate_deadline_suggestions eng today items).length ≤ 5 ∧
    (∀ r : RawDeadline, r.confidence = none → r.reason = none →
       ∀ c ∈ ContextAnalyzer.validateDeadlines today [r],
         c.confidence = 7/10 ∧ c.reason = "AI suggested deadline") := by
  refine ⟨?_, ?_, ?_, ?_⟩
  · unfold ContextAnalyzer.generate_deadline_suggestions
    dsimp only
    split
    · simp
    · split
      · exact fallback_deadlines_good hv _
      · split
        · exact fallback_deadlines_good hv _
        · intro c hc
          exact validateDeadlines_mem (mem_of_mem_sortDescBy_take hc)
  · unfold ContextAnalyzer.generate_deadline_suggestions
    dsimp only
    split
    · simp
    · split
      · exact fallback_deadlines_sorted today _
      · split
        · exact fallback_deadlines_sorted today _
        · exact pairwise_sortDescBy_take _ _ 5
  · unfold ContextAnalyzer.generate_deadline_suggestions
    dsimp only
    split
    · simp
    · split
      · exact fallback_deadlines_length today _
      · split
        · exact fallback_deadlines_length today _
        · exact List.length_take_le 5 _
  · intro r hconf hreason c hc
    rw [ContextAnalyzer.validateDeadlines] at hc
    split at hc
    · split at hc
      · split at hc
        · rcases List.mem_cons.mp hc with rfl | hmem
          · simp [hconf, hreason]
          · simp [ContextAnalyzer.validateDeadlines] at hmem
        · simp [ContextAnalyzer.validateDeadlines] at hc
      · simp [ContextAnalyzer.validateDeadlines] at hc
    · simp [ContextAnalyzer.validateDeadlines] at hc

/-- Witness for C1 at a concrete engine, date and context. -/
theorem c1_witness :
    validDate ⟨2024, 12, 18⟩ = true ∧
    ((∀ c ∈ ContextAnalyzer.generate_deadline_suggestions failingEngine
        ⟨2024, 12, 18⟩ [{ source := "manual_input", content := "do it tomorrow" }],
       validDate c.date = true ∧ dateLeB ⟨2024, 12, 18⟩ c.date = true) ∧
    (ContextAnalyzer.generate_deadline_suggestions failingEngine ⟨2024, 12, 18⟩
        [{ source := "manual_input", content := "do it tomorrow" }]).Pairwise
      (fun a b => b.confidence ≤ a.confidence) ∧
    (ContextAnalyzer.generate_deadline_suggestions failingEngine ⟨2024, 12, 18⟩
        [{ source := "manual_input", content := "do it tomorrow" }]).length ≤ 5 ∧
    (∀ r : RawDeadline, r.confidence = none → r.reason = none →
       ∀ c ∈ ContextAnalyzer.validateDeadlines ⟨2024, 12, 18⟩ [r],
         c.confidence = 7/10 ∧ c.reason = "AI suggested deadline")) :=
  ⟨by decide,
   c1_deadline_candidate_invariants failingEngine ⟨2024, 12, 18⟩ (by decide)
     [{ source := "manual_input", content := "do it tomorrow" }]⟩

/-! ### C4 — priority weighting and levels -/

/-- C4: with all five sub-scores present, the weighted score is exactly
`0.30·urgency + 0.25·importance + 0.20·context + 0.15·workload +
0.10·dependency`, it stays in `[0, 100]` when the sub-scores do, the level
thresholds are ≥80 high / ≥60 medium-high / ≥40 medium / ≥20 low-medium /
else low, and a priority score of 85 maps to `"high"`. -/
theorem c4_priority_weighting_and_levels (u i c w d s : ℚ)
    (hu0 : 0 ≤ u) (hu1 : u ≤ 100) (hi0 : 0 ≤ i) (hi1 : i ≤ 100)
    (hc0 : 0 ≤ c) (hc1 : c ≤ 100) (hw0 : 0 ≤ w) (hw1 : w ≤ 100)
    (hd0 : 0 ≤ d) (hd1 : d ≤ 100) :
    PriorityScorer.calculate_weighted_score
        [("urgency", u), ("importance", i), ("context_relevance", c),
         ("workload_impact", w), ("dependency_factor", d)] =
      (3/10) * u + (25/100) * i + (2/10) * c + (15/100) * w + (1/10) * d ∧
    0 ≤ PriorityScorer.calculate_weighted_score
        [("urgency", u), ("importance", i), ("context_relevance", c),
         ("workload_impact", w), ("dependency_factor", d)] ∧
    PriorityScorer.calculate_weighted_score
        [("urgency", u), ("importance", i), ("context_relevance", c),
         ("workload_impact", w), ("dependency_factor", d)] ≤ 100 ∧
    (80 ≤ s → PriorityScorer.get_priority_level s = "high") ∧
    (60 ≤ s → s < 80 → PriorityScorer.get_priority_level s = "medium-high") ∧
    (40 ≤ s → s < 60 → PriorityScorer.get_priority_level s = "medium") ∧
    (20 ≤ s → s < 40 → PriorityScorer.get_priority_level s = "low-medium") ∧
    (s < 20 → PriorityScorer.get_priority_level s = "low") ∧
    PriorityScorer.get_priority_level 85 = "high" := by
  have lk1 : PriorityScorer.lookupScore
      [("urgency", u), ("importance", i), ("context_relevance", c),
       ("workload_impact", w), ("dependency_factor", d)] "urgency" = some u := by
    simp [PriorityScorer.lookupScore, List.find?]
  have lk2 : PriorityScorer.lookupScore
      [("urgency", u), ("importance", i), ("context_relevance", c),
       ("workload_impact", w), ("dependency_factor", d)] "importance" = some i := by
    simp [PriorityScorer.lookupScore, List.find?]
  have lk3 : PriorityScorer.lookupScore
      [("urgency", u), ("importance", i), ("context_relevance", c),
       ("workload_impact", w), ("dependency_factor", d)] "context_relevance" =
      some c := by
    simp [PriorityScorer.lookupScore, List.find?]
  have lk4 : PriorityScorer.lookupScore
      [("urgency", u), ("importance", i), ("context_relevance", c),
       ("workload_impact", w), ("dependency_factor", d)] "workload_impact" =
      some w := by
    simp [PriorityScorer.lookupScore, List.find?]
  have lk5 : PriorityScorer.lookupScore
      [("urgency", u), ("importance", i), ("context_relevance", c),
       ("workload_impact", w), ("dependency_factor", d)] "dependency_factor" =
      some d := by
    simp [PriorityScorer.lookupScore, List.find?]
  have heval : PriorityScorer.calculate_weighted_score
      [("urgency", u), ("importance", i), ("context_relevance", c),
       ("workload_impact", w), ("dependency_factor", d)] =
      (3/10) * u + (25/100) * i + (2/10) * c + (15/100) * w + (1/10) * d := by
    rw [PriorityScorer.calculate_weighted_score, PriorityScorer.scoringFactors]
    simp only [List.foldl_cons, List.foldl_nil, lk1, lk2, lk3, lk4, lk5]
    norm_num
    ring
  refine ⟨heval, ?_, ?_, ?_, ?_, ?_, ?_, ?_, ?_⟩
  · rw [heval]; linarith
  · rw [heval]; linarith
  · intro h80
    rw [PriorityScorer.get_priority_level, if_pos h80]
  · intro h60 h80
    rw [PriorityScorer.get_priority_level, if_neg (by linarith), if_pos h60]
  · intro h40 h60
    rw [PriorityScorer.get_priority_level, if_neg (by linarith),
      if_neg (by linarith), if_pos h40]
  · intro h20 h40
    rw [PriorityScorer.get_priority_level, if_neg (by linarith),
      if_neg (by linarith), if_neg (by linarith), if_pos h20]
  · intro h20
    rw [PriorityScorer.get_priority_level, if_neg (by linarith),
      if_neg (by linarith), if_neg (by linarith), if_neg (by linarith)]
  · norm_num [PriorityScorer.get_priority_level]

/-- Witness for C4 at the concrete sub-scores of Scenario A. -/
theorem c4_witness :
    ((0:ℚ) ≤ 85 ∧ (85:ℚ) ≤ 100) ∧
    (PriorityScorer.calculate_weighted_score
        [("urgency", 85), ("importance", 85), ("context_relevance", 85),
         ("workload_impact", 85), ("dependency_factor", 85)] =
      (3/10) * 85 + (25/100) * 85 + (2/10) * 85 + (15/100) * 85 + (1/10) * 85 ∧
    0 ≤ PriorityScorer.calculate_weighted_score
        [("urgency", 85), ("importance", 85), ("context_relevance", 85),
         ("workload_impact", 85), ("dependency_factor", 85)] ∧
    PriorityScorer.calculate_weighted_score
        [("urgency", 85), ("importance", 85), ("context_relevance", 85),
         ("workload_impact", 85), ("dependency_factor", 85)] ≤ 100 ∧
    ((80:ℚ) ≤ 85 → PriorityScorer.get_priority_level 85 = "high") ∧
    ((60:ℚ) ≤ 85 → (85:ℚ) < 80 →
      PriorityScorer.get_priority_level 85 = "medium-high") ∧
    ((40:ℚ) ≤ 85 → (85:ℚ) < 60 →
      PriorityScorer.get_priority_level 85 = "medium") ∧
    ((20:ℚ) ≤ 85 → (85:ℚ) < 40 →
      PriorityScorer.get_priority_level 85 = "low-medium") ∧
    ((85:ℚ) < 20 → PriorityScorer.get_priority_level 85 = "low") ∧
    PriorityScorer.get_priority_level 85 = "high") :=
  ⟨⟨by norm_num, by norm_num⟩,
   c4_priority_weighting_and_levels 85 85 85 85 85 85
     (by norm_num) (by norm_num) (by norm_num) (by norm_num) (by norm_num)
     (by norm_num) (by norm_num) (by norm_num) (by norm_num) (by norm_num)⟩

/-! ### C9 — deadline suggester list invariants -/

theorem totalDaysNeeded_pos (tr : TimeReq) (sched : Schedule)
    (dep : DepAnalysis) : 1 ≤ DeadlineSuggester.totalDaysNeeded tr sched dep := by
  simp only [DeadlineSuggester.totalDaysNeeded]
  split
  · have h := le_max_left (1 : ℤ)
      (pyRound (tr.total_hours / sched.available_capacity))
    omega
  · have h := le_max_left (1 : ℤ) (pyRound (tr.total_hours / 3))
    omega

theorem pyTrunc_three_halves {t : ℤ} (ht : 1 ≤ t) :
    1 ≤ pyTrunc ((t : ℚ) * (3/2)) := by
  have hq : (3/2 : ℚ) ≤ (t : ℚ) * (3/2) := by
    nlinarith [show (1 : ℚ) ≤ (t : ℚ) from by exact_mod_cast ht]
  have h0 : (0 : ℚ) ≤ (t : ℚ) * (3/2) := by linarith
  rw [pyTrunc, if_pos h0]
  exact Int.le_floor.mpr (by push_cast; linarith)

/-- C9: for every task / time-requirement / schedule / dependency input,
the deadline suggester's `generate_deadline_suggestions` returns a
non-empty list consisting of a conservative and a realistic suggestion,
plus an aggressive one exactly when the total estimated days exceed 1;
every suggestion has `days_from_now ≥ 1` (its deadline is strictly in the
future) and carries no `confidence` field. -/
theorem c9_deadline_suggester_invariants (today : Date) (tr : TimeReq)
    (sched : Schedule) (dep : DepAnalysis) :
    DeadlineSuggester.generate_deadline_suggestions today tr sched dep ≠ [] ∧
    (DeadlineSuggester.generate_deadline_suggestions today tr sched dep).map
        (fun s => s.stype) =
      ["conservative", "realistic"] ++
        (if 1 < DeadlineSuggester.totalDaysNeeded tr sched dep then
          ["aggressive"] else []) ∧
    (∀ s ∈ DeadlineSuggester.generate_deadline_suggestions today tr sched dep,
      1 ≤ s.days_from_now ∧ s.confidence = none ∧
        dateLtB today s.deadline = true) := by
  have htd := totalDaysNeeded_pos tr sched dep
  refine ⟨?_, ?_, ?_⟩
  · rw [DeadlineSuggester.generate_deadline_suggestions]
    simp
  · rw [DeadlineSuggester.generate_deadline_suggestions]
    dsimp only
    rw [List.map_append]
    congr 1
    split <;> simp
  · intro s hs
    rw [DeadlineSuggester.generate_deadline_suggestions] at hs
    dsimp only at hs
    rw [List.mem_append] at hs
    have hcons : 1 ≤ pyTrunc
        ((DeadlineSuggester.totalDaysNeeded tr sched dep : ℚ) * (3/2)) :=
      pyTrunc_three_halves htd
    rcases hs with hs | hs
    · rw [List.mem_cons, List.mem_singleton] at hs
      rcases hs with rfl | rfl
      · refine ⟨hcons, rfl, ?_⟩
        dsimp only
        exact dateLtB_addDays today (by omega)
      · refine ⟨htd, rfl, ?_⟩
        dsimp only
        exact dateLtB_addDays today (by omega)
    · rw [List.mem_ite_nil_right] at hs
      obtain ⟨hgt, hs⟩ := hs
      rw [List.mem_singleton] at hs
      subst hs
      have hagg : 1 ≤ max 1 (pyTrunc
          ((DeadlineSuggester.totalDaysNeeded tr sched dep : ℚ) * (7/10))) :=
        le_max_left 1 _
      refine ⟨hagg, rfl, ?_⟩
      dsimp only
      exact dateLtB_addDays today (by omega)

/-! ### C10 — engine wrapper dispatch and structured-response handling -/

/-- C10: `analyze_text` raises `ValueError` exactly for analysis types
outside the eight supported intents and otherwise delegates to
`generate_structured_response`, which is a total function (it never
raises): whenever it cannot produce a parsed value from an engine text, it
returns an error dictionary that carries the raw response text. -/
theorem c10_analyze_text_dispatch {J : Type} (engineText : Option String)
    (jsonLoads : String → Option J) (analysisType : String) :
    (analysisType ∈ Gemini.analysisTypes →
      Gemini.analyze_text engineText jsonLoads analysisType =
        .ok (Gemini.generate_structured_response engineText jsonLoads)) ∧
    (analysisType ∉ Gemini.analysisTypes →
      Gemini.analyze_text engineText jsonLoads analysisType =
        .error ("Unknown analysis type: " ++ analysisType)) ∧
    (∀ t : String,
      (∀ j : J, Gemini.generate_structured_response (some t) jsonLoads ≠ .ok j) →
      ∃ msg, Gemini.generate_structured_response (some t) jsonLoads =
        .errorRes msg (some t)) ∧
    Gemini.generate_structured_response (J := J) none jsonLoads =
      .errorRes "engine call raised" none := by
  refine ⟨?_, ?_, ?_, rfl⟩
  · intro hmem
    rw [Gemini.analyze_text, if_pos hmem]
  · intro hmem
    rw [Gemini.analyze_text, if_neg hmem]
  · intro t hnotok
    rw [Gemini.generate_structured_response]
    rw [Gemini.generate_structured_response] at hnotok
    rcases h1 : firstIdxL Gemini.lbrace t.data with _ | s <;>
      rcases h2 : lastIdxL Gemini.rbrace t.data with _ | e
    · exact ⟨"No structured data found", rfl⟩
    · exact ⟨"No structured data found", rfl⟩
    · exact ⟨"No structured data found", rfl⟩
    · rw [h1, h2] at hnotok
      rcases h3 : jsonLoads ⟨sliceL t.data s (e + 1)⟩ with _ | j
      · refine ⟨"Invalid JSON response", ?_⟩
        dsimp only
        rw [h3]
      · exfalso
        apply hnotok j
        dsimp only
        rw [h3]

/-- Witness for C10 at concrete analysis types and engine texts. -/
theorem c10_witness :
    Gemini.analyze_text (J := Unit) (some "x") (fun _ => none) "extract_tasks" =
      .ok (Gemini.generate_structured_response (some "x") (fun _ => none)) ∧
    Gemini.analyze_text (J := Unit) (some "x") (fun _ => none) "sentiment" =
      .error ("Unknown analysis type: " ++ "sentiment") ∧
    (∃ msg, Gemini.generate_structured_response (J := Unit) (some "")
      (fun _ => none) = .errorRes msg (some "")) :=
  ⟨(c10_analyze_text_dispatch (some "x") (fun _ => none) "extract_tasks").1
     (by decide),
   (c10_analyze_text_dispatch (some "x") (fun _ => none) "sentiment").2.1
     (by decide),
   (c10_analyze_text_dispatch (some "") (fun _ => none) "sentiment").2.2.1 ""
     (by intro j h
         simp [Gemini.generate_structured_response, firstIdxL] at h)⟩

/-! ### C5 — category normalization -/

theorem validateCategories_names {raws : List RawCategory} {c : VCategory}
    (h : c ∈ ContextAnalyzer.validateCategories raws) :
    c.name ≠ "" ∧ strLen c.name ≤ 50 := by
  induction raws with
  | nil => simp [ContextAnalyzer.validateCategories] at h
  | cons r rest ih =>
    rw [ContextAnalyzer.validateCategories] at h
    split at h
    · rename_i hcond
      rw [Bool.and_eq_true, decide_eq_true_eq, decide_eq_true_eq] at hcond
      rcases List.mem_cons.mp h with rfl | hmem
      · exact hcond
      · exact ih hmem
    · exact ih h

theorem validateCategories_eq_filterMap (raws : List RawCategory) :
    ContextAnalyzer.validateCategories raws =
      raws.filterMap normalizeCategory := by
  induction raws with
  | nil => rfl
  | cons r rest ih =>
    rw [ContextAnalyzer.validateCategories, List.filterMap_cons]
    by_cases h : (pyStrip (r.name.getD "") ≠ "" &&
        strLen (pyStrip (r.name.getD "")) ≤ 50) = true
    · rw [if_pos h, normalizeCategory, if_pos h, ih]
    · rw [if_neg h, normalizeCategory, if_neg h, ih]

theorem padStep_mem {l : List VCategory} {dc c : VCategory}
    (h : c ∈ ContextAnalyzer.padStep l dc) : c ∈ l ∨ c = dc := by
  rw [ContextAnalyzer.padStep] at h
  split at h
  · rcases List.mem_append.mp h with h | h
    · exact Or.inl h
    · exact Or.inr (List.mem_singleton.mp h)
  · exact Or.inl h

theorem bucketCategories_names (text : String) :
    ∀ c ∈ ContextAnalyzer.bucketCategories text,
      c.name ≠ "" ∧ strLen c.name ≤ 50 := by
  unfold ContextAnalyzer.bucketCategories
  dsimp only
  rw [List.forall_mem_append, List.forall_mem_append, List.forall_mem_append,
    List.forall_mem_append]
  refine ⟨⟨⟨⟨?_, ?_⟩, ?_⟩, ?_⟩, ?_⟩ <;> (apply forall_mem_ite_nil; dsimp only) <;>
    exact ⟨by decide, by decide⟩

theorem padCategories_names {l : List VCategory}
    (hl : ∀ c ∈ l, c.name ≠ "" ∧ strLen c.name ≤ 50) :
    ∀ c ∈ ContextAnalyzer.padCategories l,
      c.name ≠ "" ∧ strLen c.name ≤ 50 := by
  intro c hc
  rw [ContextAnalyzer.padCategories] at hc
  split at hc
  · rw [ContextAnalyzer.defaultCategories] at hc
    simp only [List.foldl_cons, List.foldl_nil] at hc
    rcases padStep_mem hc with hc | rfl
    · rcases padStep_mem hc with hc | rfl
      · rcases padStep_mem hc with hc | rfl
        · exact hl c hc
        · exact ⟨by decide, by decide⟩
      · exact ⟨by decide, by decide⟩
    · exact ⟨by decide, by decide⟩
  · exact hl c hc

theorem fallback_categories_names (text : String) :
    ∀ c ∈ ContextAnalyzer.generate_fallback_categories text,
      c.name ≠ "" ∧ strLen c.name ≤ 50 := by
  intro c hc
  exact padCategories_names (bucketCategories_names text) c
    (mem_of_mem_sortDescBy_take hc)

theorem generate_category_suggestions_names (eng : Engine)
    (items : List TextItem) :
    ∀ c ∈ ContextAnalyzer.generate_category_suggestions eng items,
      c.name ≠ "" ∧ strLen c.name ≤ 50 := by
  intro c hc
  rw [ContextAnalyzer.generate_category_suggestions] at hc
  dsimp only at hc
  split at hc
  · simp at hc
  · split at hc
    · exact fallback_categories_names _ c hc
    · split at hc
      · exact fallback_categories_names _ c hc
      · exact validateCategories_names (mem_of_mem_sortDescBy_take hc)

/-- C5: category normalization discards exactly the candidates whose
(stripped) name is empty or longer than 50 characters, fills the
`reason`/`confidence`/`relevance` defaults, and sorts the survivors by
confidence descending truncated to 5; names in the output are never empty
or longer than 50 on any path, and the engine list
`[{name:"", confidence:0.9}, {name:"Work", confidence:0.5}]` normalizes to
just the `"Work"` candidate with confidence 0.5. -/
theorem c5_category_normalization (eng : Engine) (items : List TextItem)
    (raws : List RawCategory) (hresp : eng.ctxCategoriesResp = some raws)
    (hne : ¬ pyStrip (ContextAnalyzer.combinedText items) = "")
    (hsome : ContextAnalyzer.validateCategories raws ≠ []) :
    ContextAnalyzer.generate_category_suggestions eng items =
      (sortDescBy (fun c => c.confidence)
        (ContextAnalyzer.validateCategories raws)).take 5 ∧
    (∀ raws' : List RawCategory, ContextAnalyzer.validateCategories raws' =
      raws'.filterMap normalizeCategory) ∧
    (∀ (eng' : Engine) (items' : List TextItem),
      ∀ c ∈ ContextAnalyzer.generate_category_suggestions eng' items',
        c.name ≠ "" ∧ strLen c.name ≤ 50) ∧
    ContextAnalyzer.validateCategories
      [{ name := some "", reason := none, confidence := some (9/10),
         relevance := none },
       { name := some "Work", reason := none, confidence := some (1/2),
         relevance := none }] =
      [{ name := "Work", reason := "AI suggested category", confidence := 1/2,
         relevance := "medium" }] := by
  refine ⟨?_, validateCategories_eq_filterMap,
    generate_category_suggestions_names, ?_⟩
  · rw [ContextAnalyzer.generate_category_suggestions]
    dsimp only
    rw [if_neg hne, hresp]
    dsimp only
    rw [if_neg (by simp [List.isEmpty_iff, hsome])]
  · rfl

/-- Witness for C5 at the Scenario D engine response. -/
theorem c5_witness :
    ({ failingEngine with ctxCategoriesResp := some [
        { name := some "", reason := none, confidence := some (9/10),
          relevance := none },
        { name := some "Work", reason := none, confidence := some (1/2),
          relevance := none }] } : Engine).ctxCategoriesResp = some [
        { name := some "", reason := none, confidence := some (9/10),
          relevance := none },
        { name := some "Work", reason := none, confidence := some (1/2),
          relevance := none }] ∧
    ¬ pyStrip (ContextAnalyzer.combinedText
        [{ source := "manual_input", content := "hello" }]) = "" ∧
    ContextAnalyzer.generate_category_suggestions
      { failingEngine with ctxCategoriesResp := some [
        { name := some "", reason := none, confidence := some (9/10),
          relevance := none },
        { name := some "Work", reason := none, confidence := some (1/2),
          relevance := none }] }
      [{ source := "manual_input", content := "hello" }] =
      (sortDescBy (fun c => c.confidence) (ContextAnalyzer.validateCategories [
        { name := some "", reason := none, confidence := some (9/10),
          relevance := none },
        { name := some "Work", reason := none, confidence := some (1/2),
          relevance := none }])).take 5 :=
  ⟨rfl, by decide,
   (c5_category_normalization _ [{ source := "manual_input", content := "hello" }]
     _ rfl (by decide) (by decide)).1⟩

/-! ### C8 — fallback category generator -/

theorem bucketCategories_bucket_names (text : String) :
    ∀ c ∈ ContextAnalyzer.bucketCategories text,
      c.name ∈ ["Work", "Communication", "Planning", "Personal", "Health"] := by
  unfold ContextAnalyzer.bucketCategories
  dsimp only
  rw [List.forall_mem_append, List.forall_mem_append, List.forall_mem_append,
    List.forall_mem_append]
  refine ⟨⟨⟨⟨?_, ?_⟩, ?_⟩, ?_⟩, ?_⟩ <;> (apply forall_mem_ite_nil; dsimp only) <;>
    decide

theorem bucketCategories_not_default (text : String) (n : String)
    (hn : n = "General" ∨ n = "Tasks" ∨ n = "Important") :
    (ContextAnalyzer.bucketCategories text).any (fun x => x.name = n) = false := by
  rw [List.any_eq_false]
  intro x hx
  have h := bucketCategories_bucket_names text x hx
  simp only [List.mem_cons, List.not_mem_nil, or_false] at h
  simp only [decide_eq_true_eq]
  rcases h with h | h | h | h | h <;> rw [h] <;>
    rcases hn with rfl | rfl | rfl <;> decide

theorem bucketCategories_length_le (text : String) :
    (ContextAnalyzer.bucketCategories text).length ≤ 5 := by
  unfold ContextAnalyzer.bucketCategories
  dsimp only
  simp only [List.length_append]
  split_ifs <;> simp

theorem padStep_length_pos {l : List VCategory} {d : VCategory}
    (h : l.length < 5) (hfresh : l.any (fun x => x.name = d.name) = false) :
    (ContextAnalyzer.padStep l d).length = l.length + 1 := by
  rw [ContextAnalyzer.padStep, if_pos (by simp [h, hfresh])]
  simp

theorem padStep_length_neg {l : List VCategory} {d : VCategory}
    (h : ¬ l.length < 5) :
    (ContextAnalyzer.padStep l d).length = l.length := by
  rw [ContextAnalyzer.padStep, if_neg (by simp; omega)]

theorem padStep_any_false {l : List VCategory} {dc : VCategory}
    {p : VCategory → Bool} (hl : l.any p = false) (hdc : p dc = false) :
    (ContextAnalyzer.padStep l dc).any p = false := by
  rw [ContextAnalyzer.padStep]
  split
  · simp [List.any_append, hl, hdc]
  · exact hl

theorem padCategories_length {l : List VCategory} (h5 : l.length ≤ 5)
    (hG : l.any (fun x => x.name = "General") = false)
    (hT : l.any (fun x => x.name = "Tasks") = false)
    (hI : l.any (fun x => x.name = "Important") = false) :
    (ContextAnalyzer.padCategories l).length = min (l.length + 3) 5 := by
  rw [ContextAnalyzer.padCategories]
  split
  · rename_i hlt
    rw [ContextAnalyzer.defaultCategories]
    simp only [List.foldl_cons, List.foldl_nil]
    have e1 := padStep_length_pos (d :=
      { name := "General", reason := "Default category",
        confidence := 5/10, relevance := "low" }) hlt hG
    by_cases h2 : l.length + 1 < 5
    · have e2 := padStep_length_pos (d :=
        { name := "Tasks", reason := "General task category",
          confidence := 4/10, relevance := "low" })
        (by rw [e1]; omega) (padStep_any_false hT (by decide))
      by_cases h3 : l.length + 2 < 5
      · have e3 := padStep_length_pos (d :=
          { name := "Important", reason := "Important items",
            confidence := 3/10, relevance := "low" })
          (by rw [e2, e1]; omega)
          (padStep_any_false (padStep_any_false hI (by decide)) (by decide))
        rw [e3, e2, e1]
        omega
      · have e3 := padStep_length_neg (d :=
          { name := "Important", reason := "Important items",
            confidence := 3/10, relevance := "low" })
          (by rw [e2, e1]; omega)
        rw [e3, e2, e1]
        omega
    · have e2 := padStep_length_neg (d :=
        { name := "Tasks", reason := "General task category",
          confidence := 4/10, relevance := "low" }) (by rw [e1]; omega)
      have e3 := padStep_length_neg (d :=
        { name := "Important", reason := "Important items",
          confidence := 3/10, relevance := "low" }) (by rw [e2, e1]; omega)
      rw [e3, e2, e1]
      omega
  · rename_i hge
    omega

theorem mem_padStep_of_mem {l : List VCategory} {dc x : VCategory}
    (h : x ∈ l) : x ∈ ContextAnalyzer.padStep l dc := by
  rw [ContextAnalyzer.padStep]
  split
  · exact List.mem_append_left _ h
  · exact h

theorem mem_padCategories_of_mem {l : List VCategory} {x : VCategory}
    (h : x ∈ l) : x ∈ ContextAnalyzer.padCategories l := by
  rw [ContextAnalyzer.padCategories]
  split
  · rw [ContextAnalyzer.defaultCategories]
    simp only [List.foldl_cons, List.foldl_nil]
    exact mem_padStep_of_mem (mem_padStep_of_mem (mem_padStep_of_mem h))
  · exact h

theorem fallback_categories_length (text : String) :
    (ContextAnalyzer.generate_fallback_categories text).length =
      min ((ContextAnalyzer.bucketCategories text).length + 3) 5 := by
  have hpad := padCategories_length (bucketCategories_length_le text)
    (bucketCategories_not_default text _ (Or.inl rfl))
    (bucketCategories_not_default text _ (Or.inr (Or.inl rfl)))
    (bucketCategories_not_default text _ (Or.inr (Or.inr rfl)))
  rw [ContextAnalyzer.generate_fallback_categories, List.length_take,
    length_sortDescBy, hpad]
  omega

theorem mem_fallback_categories_of_mem_bucket {text : String} {x : VCategory}
    (h : x ∈ ContextAnalyzer.bucketCategories text) :
    x ∈ ContextAnalyzer.generate_fallback_categories text := by
  have hpad := padCategories_length (bucketCategories_length_le text)
    (bucketCategories_not_default text _ (Or.inl rfl))
    (bucketCategories_not_default text _ (Or.inr (Or.inl rfl)))
    (bucketCategories_not_default text _ (Or.inr (Or.inr rfl)))
  rw [ContextAnalyzer.generate_fallback_categories]
  rw [List.take_of_length_le (by rw [length_sortDescBy, hpad]; omega)]
  exact (mem_sortDescBy _ _ _).mpr (mem_padCategories_of_mem h)

theorem fallback_categories_name_mem (text : String) :
    ∀ c ∈ ContextAnalyzer.generate_fallback_categories text,
      c.name ∈ ["Work", "Communication", "Planning", "Personal", "Health",
        "General", "Tasks", "Important"] := by
  intro c hc
  have hc' := mem_of_mem_sortDescBy_take hc
  rw [ContextAnalyzer.padCategories] at hc'
  have hbucket : ∀ x ∈ ContextAnalyzer.bucketCategories text,
      x.name ∈ ["Work", "Communication", "Planning", "Personal", "Health",
        "General", "Tasks", "Important"] := by
    intro x hx
    have h := bucketCategories_bucket_names text x hx
    simp only [List.mem_cons, List.not_mem_nil, or_false] at h ⊢
    rcases h with h | h | h | h | h <;> rw [h] <;> decide
  split at hc'
  · rw [ContextAnalyzer.defaultCategories] at hc'
    simp only [List.foldl_cons, List.foldl_nil] at hc'
    rcases padStep_mem hc' with h | rfl
    · rcases padStep_mem h with h | rfl
      · rcases padStep_mem h with h | rfl
        · exact hbucket c h
        · decide
      · decide
    · decide
  · exact hbucket c hc'

/-- C8 (counterexample): the fallback category generator does not pad
"until 5 categories are present" — for a text matching no keyword bucket
only the three generic categories exist, so the result has length 3. -/
theorem c8_counterexample :
    (ContextAnalyzer.generate_fallback_categories "hello").length = 3 ∧
    (ContextAnalyzer.generate_fallback_categories "hello").length ≠ 5 := by
  have hb : (ContextAnalyzer.bucketCategories "hello").length = 0 := by decide
  have h := fallback_categories_length "hello"
  rw [hb] at h
  exact ⟨by rw [h]; decide, by rw [h]; decide⟩

/-- C8 (amended): the fallback produces its five keyword buckets
(work → "Work", meeting/client → "Communication", deadline/plan →
"Planning", home/family → "Personal", health/fitness → "Health"), and when
fewer than 5 buckets matched it appends those of the three generic
categories "General"/"Tasks"/"Important" that fit under the 5-cap — so the
result has `min (buckets + 3) 5` categories (as few as 3, not always 5) —
sorted by confidence descending and capped at 5. -/
theorem c8_fallback_categories_amended (text : String) :
    (ContextAnalyzer.generate_fallback_categories text).Pairwise
      (fun a b => b.confidence ≤ a.confidence) ∧
    (ContextAnalyzer.generate_fallback_categories text).length =
      min ((ContextAnalyzer.bucketCategories text).length + 3) 5 ∧
    (ContextAnalyzer.generate_fallback_categories text).length ≤ 5 ∧
    (∀ c ∈ ContextAnalyzer.generate_fallback_categories text,
      c.name ∈ ["Work", "Communication", "Planning", "Personal", "Health",
        "General", "Tasks", "Important"]) ∧
    ((["project", "report", "proposal", "document"].any
        (fun w => subStr (lowerS text) w)) = true →
      ({ name := "Work", reason := "Based on work-related content",
         confidence := 8/10, relevance := "high" } : VCategory) ∈
        ContextAnalyzer.generate_fallback_categories text) ∧
    ((["meeting", "client", "presentation"].any
        (fun w => subStr (lowerS text) w)) = true →
      ({ name := "Communication",
         reason := "Based on communication-related content",
         confidence := 7/10, relevance := "medium" } : VCategory) ∈
        ContextAnalyzer.generate_fallback_categories text) ∧
    ((["deadline", "schedule", "plan"].any
        (fun w => subStr (lowerS text) w)) = true →
      ({ name := "Planning", reason := "Based on planning and scheduling content",
         confidence := 6/10, relevance := "medium" } : VCategory) ∈
        ContextAnalyzer.generate_fallback_categories text) ∧
    ((["home", "family", "personal"].any
        (fun w => subStr (lowerS text) w)) = true →
      ({ name := "Personal", reason := "Based on personal content",
         confidence := 7/10, relevance := "high" } : VCategory) ∈
        ContextAnalyzer.generate_fallback_categories text) ∧
    ((["health", "exercise", "fitness"].any
        (fun w => subStr (lowerS text) w)) = true →
      ({ name := "Health", reason := "Based on health-related content",
         confidence := 8/10, relevance := "high" } : VCategory) ∈
        ContextAnalyzer.generate_fallback_categories text) := by
  refine ⟨pairwise_sortDescBy_take _ _ 5, fallback_categories_length text,
    ?_, fallback_categories_name_mem text, ?_, ?_, ?_, ?_, ?_⟩
  · rw [fallback_categories_length text]
    omega
  · intro hcond
    apply mem_fallback_categories_of_mem_bucket
    unfold ContextAnalyzer.bucketCategories
    dsimp only
    refine List.mem_append_left _ (List.mem_append_left _
      (List.mem_append_left _ (List.mem_append_left _ ?_)))
    rw [if_pos hcond]
    exact List.mem_singleton_self _
  · intro hcond
    apply mem_fallback_categories_of_mem_bucket
    unfold ContextAnalyzer.bucketCategories
    dsimp only
    refine List.mem_append_left _ (List.mem_append_left _
      (List.mem_append_left _ (List.mem_append_right _ ?_)))
    rw [if_pos hcond]
    exact List.mem_singleton_self _
  · intro hcond
    apply mem_fallback_categories_of_mem_bucket
    unfold ContextAnalyzer.bucketCategories
    dsimp only
    refine List.mem_append_left _ (List.mem_append_left _
      (List.mem_append_right _ ?_))
    rw [if_pos hcond]
    exact List.mem_singleton_self _
  · intro hcond
    apply mem_fallback_categories_of_mem_bucket
    unfold ContextAnalyzer.bucketCategories
    dsimp only
    refine List.mem_append_left _ (List.mem_append_right _ ?_)
    rw [if_pos hcond]
    exact List.mem_singleton_self _
  · intro hcond
    apply mem_fallback_categories_of_mem_bucket
    unfold ContextAnalyzer.bucketCategories
    dsimp only
    refine List.mem_append_right _ ?_
    rw [if_pos hcond]
    exact List.mem_singleton_self _

/-- Witness for C8 (amended) at a text matching the work and health
buckets. -/
theorem c8_witness :
    (["project", "report", "proposal", "document"].any
      (fun w => subStr (lowerS "project for health") w)) = true ∧
    ({ name := "Work", reason := "Based on work-related content",
       confidence := 8/10, relevance := "high" } : VCategory) ∈
      ContextAnalyzer.generate_fallback_categories "project for health" ∧
    ({ name := "Health", reason := "Based on health-related content",
       confidence := 8/10, relevance := "high" } : VCategory) ∈
      ContextAnalyzer.generate_fallback_categories "project for health" ∧
    (ContextAnalyzer.generate_fallback_categories "project for health").length =
      min ((ContextAnalyzer.bucketCategories "project for health").length + 3) 5 :=
  ⟨by decide,
   (c8_fallback_categories_amended "project for health").2.2.2.2.1 (by decide),
   (c8_fallback_categories_amended
     "project for health").2.2.2.2.2.2.2.2 (by decide),
   (c8_fallback_categories_amended "project for health").2.1⟩

/-! ### C7 — fallback deadline generator -/

/-- C7 (counterexample): with today = 2024-12-18 (a Wednesday), a context
text containing "next Friday" and "in 2 weeks" does not trigger the
"this week"/"end of week" pattern, so the fallback yields no 2024-12-20
date: it yields the +14-day candidate 2025-01-01 plus the three generic
backfill dates. -/
theorem c7_counterexample :
    (ContextAnalyzer.generate_fallback_deadlines ⟨2024, 12, 18⟩
        "Deliver by next Friday or in 2 weeks").map (fun c => c.date) =
      [⟨2025, 1, 1⟩, ⟨2024, 12, 19⟩, ⟨2024, 12, 21⟩, ⟨2024, 12, 25⟩] ∧
    (∀ c ∈ ContextAnalyzer.generate_fallback_deadlines ⟨2024, 12, 18⟩
        "Deliver by next Friday or in 2 weeks",
      c.date ≠ ⟨2024, 12, 20⟩) := by
  have h1 : subStr (lowerS "Deliver by next Friday or in 2 weeks")
      "tomorrow" = false := by decide
  have h2a : subStr (lowerS "Deliver by next Friday or in 2 weeks")
      "this week" = false := by decide
  have h2b : subStr (lowerS "Deliver by next Friday or in 2 weeks")
      "end of week" = false := by decide
  have h3 : subStr (lowerS "Deliver by next Friday or in 2 weeks")
      "next week" = false := by decide
  have h4a : subStr (lowerS "Deliver by next Friday or in 2 weeks")
      "2 weeks" = true := by decide
  have h5a : subStr (lowerS "Deliver by next Friday or in 2 weeks")
      "end of month" = false := by decide
  have h5b : subStr (lowerS "Deliver by next Friday or in 2 weeks")
      "month end" = false := by decide
  have ha1 : addDays ⟨2024, 12, 18⟩ 1 = ⟨2024, 12, 19⟩ := by decide
  have ha3 : addDays ⟨2024, 12, 18⟩ 3 = ⟨2024, 12, 21⟩ := by decide
  have ha7 : addDays ⟨2024, 12, 18⟩ 7 = ⟨2024, 12, 25⟩ := by decide
  have ha14 : addDays ⟨2024, 12, 18⟩ 14 = ⟨2025, 1, 1⟩ := by decide
  have hpat : ContextAnalyzer.patternDeadlines ⟨2024, 12, 18⟩
      "Deliver by next Friday or in 2 weeks" =
      [{ date := ⟨2025, 1, 1⟩, reason := "Based on \"2 weeks\" reference",
         confidence := 7/10, urgency_level := "low" }] := by
    rw [ContextAnalyzer.patternDeadlines]
    simp only [h1, h2a, h2b, h3, h4a, h5a, h5b, ha14]
    norm_num
  have hfb : ContextAnalyzer.backfillDeadlines ⟨2024, 12, 18⟩
      [{ date := ⟨2025, 1, 1⟩, reason := "Based on \"2 weeks\" reference",
         confidence := 7/10, urgency_level := "low" }] =
      [{ date := ⟨2025, 1, 1⟩, reason := "Based on \"2 weeks\" reference",
         confidence := 7/10, urgency_level := "low" },
       { date := ⟨2024, 12, 19⟩, reason := "Default immediate deadline",
         confidence := 6/10, urgency_level := "high" },
       { date := ⟨2024, 12, 21⟩, reason := "Default short-term deadline",
         confidence := 5/10, urgency_level := "medium" },
       { date := ⟨2024, 12, 25⟩, reason := "Default medium-term deadline",
         confidence := 4/10, urgency_level := "low" }] := by
    rw [ContextAnalyzer.backfillDeadlines]
    simp only [ha1, ha3, ha7]
    norm_num
  have hall : ContextAnalyzer.generate_fallback_deadlines ⟨2024, 12, 18⟩
      "Deliver by next Friday or in 2 weeks" =
      [{ date := ⟨2025, 1, 1⟩, reason := "Based on \"2 weeks\" reference",
         confidence := 7/10, urgency_level := "low" },
       { date := ⟨2024, 12, 19⟩, reason := "Default immediate deadline",
         confidence := 6/10, urgency_level := "high" },
       { date := ⟨2024, 12, 21⟩, reason := "Default short-term deadline",
         confidence := 5/10, urgency_level := "medium" },
       { date := ⟨2024, 12, 25⟩, reason := "Default medium-term deadline",
         confidence := 4/10, urgency_level := "low" }] := by
    rw [ContextAnalyzer.generate_fallback_deadlines, hpat, hfb]
    norm_num [sortDescBy, List.insertionSort, List.orderedInsert]
  rw [hall]
  constructor
  · rfl
  · intro c hc
    simp only [List.mem_cons, List.not_mem_nil, or_false] at hc
    rcases hc with rfl | rfl | rfl | rfl <;> decide

theorem mem_ite_append_of_mem {α : Type} {l : List α} {x c : α} {b : Prop}
    [Decidable b] (h : c ∈ l) : c ∈ (if b then l ++ [x] else l) := by
  split
  · exact List.mem_append_left _ h
  · exact h

theorem exists_prop_ite_append {α : Type} {L : List α} {x : α} {b : Prop}
    [Decidable b] {P : α → Prop} (h : ∃ c ∈ L, P c) :
    ∃ c ∈ (if b then L ++ [x] else L), P c := by
  obtain ⟨c, hm, hp⟩ := h
  exact ⟨c, mem_ite_append_of_mem hm, hp⟩

theorem exists_date_ite_append {today : Date} {k : Nat} {l : List VDeadline}
    {cand : VDeadline} (hcand : cand.date = addDays today k) :
    ∃ c ∈ (if !(l.any (fun d => d.date = addDays today k)) then l ++ [cand]
      else l), c.date = addDays today k := by
  split
  · exact ⟨cand, List.mem_append_right _ (List.mem_singleton_self _), hcand⟩
  · rename_i h
    rw [Bool.not_eq_true', Bool.not_eq_false] at h
    obtain ⟨c, hcl, hcd⟩ := List.any_eq_true.mp h
    exact ⟨c, hcl, by simpa using hcd⟩

theorem backfillDeadlines_of_ge {today : Date} {l : List VDeadline}
    (h : ¬ l.length < 3) : ContextAnalyzer.backfillDeadlines today l = l := by
  rw [ContextAnalyzer.backfillDeadlines, if_neg h]

theorem backfillDeadlines_dates {today : Date} {l : List VDeadline}
    (hlen : l.length < 3) :
    ∀ k ∈ ([1, 3, 7] : List Nat),
      ∃ c ∈ ContextAnalyzer.backfillDeadlines today l,
        c.date = addDays today k := by
  intro k hk
  rw [ContextAnalyzer.backfillDeadlines, if_pos hlen]
  dsimp only
  simp only [List.mem_cons, List.not_mem_nil, or_false] at hk
  rcases hk with rfl | rfl | rfl
  · exact exists_prop_ite_append (exists_prop_ite_append
      (exists_date_ite_append (by dsimp only)))
  · exact exists_prop_ite_append (exists_date_ite_append (by dsimp only))
  · exact exists_date_ite_append (by dsimp only)

/-- C7 (amended): the deterministic deadline fallback pattern-matches the
keywords ("tomorrow" → +1 day; "this week"/"end of week" → next Friday;
"next week" → +7 days; "2 weeks"/"two weeks" → +14 days; "end of month" →
last calendar day of the month), backfills with the generic
tomorrow/+3-day/+7-day dates whenever fewer than 3 candidates were
produced, and sorts by confidence descending capped at 5.  With today
fixed at 2024-12-18 (a Wednesday), a context text containing "this week"
(not "next Friday", which matches no pattern) and "in 2 weeks" yields the
Friday date 2024-12-20 and the +14-day date 2025-01-01. -/
theorem c7_fallback_deadlines_amended (today : Date) (text : String)
    (l : List VDeadline) :
    (ContextAnalyzer.generate_fallback_deadlines today text).Pairwise
      (fun a b => b.confidence ≤ a.confidence) ∧
    (ContextAnalyzer.generate_fallback_deadlines today text).length ≤ 5 ∧
    (subStr (lowerS text) "tomorrow" = true →
      ({ date := addDays today 1,
         reason := "Based on \"tomorrow\" reference in context",
         confidence := 9/10, urgency_level := "high" } : VDeadline) ∈
        ContextAnalyzer.patternDeadlines today text) ∧
    ((subStr (lowerS text) "this week" ||
        subStr (lowerS text) "end of week") = true →
      ({ date := addDays today (daysUntilFriday today),
         reason := "Based on \"this week\" or \"end of week\" reference",
         confidence := 8/10, urgency_level := "medium" } : VDeadline) ∈
        ContextAnalyzer.patternDeadlines today text) ∧
    (subStr (lowerS text) "next week" = true →
      ({ date := addDays today 7, reason := "Based on \"next week\" reference",
         confidence := 8/10, urgency_level := "medium" } : VDeadline) ∈
        ContextAnalyzer.patternDeadlines today text) ∧
    ((subStr (lowerS text) "2 weeks" ||
        subStr (lowerS text) "two weeks") = true →
      ({ date := addDays today 14, reason := "Based on \"2 weeks\" reference",
         confidence := 7/10, urgency_level := "low" } : VDeadline) ∈
        ContextAnalyzer.patternDeadlines today text) ∧
    ((subStr (lowerS text) "end of month" ||
        subStr (lowerS text) "month end") = true →
      ({ date := endOfMonth today,
         reason := "Based on \"end of month\" reference",
         confidence := 7/10, urgency_level := "low" } : VDeadline) ∈
        ContextAnalyzer.patternDeadlines today text) ∧
    (l.length < 3 → ∀ k ∈ ([1, 3, 7] : List Nat),
      ∃ c ∈ ContextAnalyzer.backfillDeadlines today l,
        c.date = addDays today k) ∧
    (¬ l.length < 3 → ContextAnalyzer.backfillDeadlines today l = l) ∧
    (ContextAnalyzer.generate_fallback_deadlines ⟨2024, 12, 18⟩
        "Finish this week or in 2 weeks").map (fun c => c.date) =
      [⟨2024, 12, 20⟩, ⟨2025, 1, 1⟩, ⟨2024, 12, 19⟩, ⟨2024, 12, 21⟩,
       ⟨2024, 12, 25⟩] := by
  refine ⟨pairwise_sortDescBy_take _ _ 5, List.length_take_le 5 _,
    ?_, ?_, ?_, ?_, ?_, backfillDeadlines_dates, backfillDeadlines_of_ge, ?_⟩
  · intro hcond
    unfold ContextAnalyzer.patternDeadlines
    dsimp only
    refine List.mem_append_left _ (List.mem_append_left _
      (List.mem_append_left _ (List.mem_append_left _ ?_)))
    rw [if_pos hcond]
    exact List.mem_singleton_self _
  · intro hcond
    unfold ContextAnalyzer.patternDeadlines
    dsimp only
    refine List.mem_append_left _ (List.mem_append_left _
      (List.mem_append_left _ (List.mem_append_right _ ?_)))
    rw [if_pos hcond]
    exact List.mem_singleton_self _
  · intro hcond
    unfold ContextAnalyzer.patternDeadlines
    dsimp only
    refine List.mem_append_left _ (List.mem_append_left _
      (List.mem_append_right _ ?_))
    rw [if_pos hcond]
    exact List.mem_singleton_self _
  · intro hcond
    unfold ContextAnalyzer.patternDeadlines
    dsimp only
    refine List.mem_append_left _ (List.mem_append_right _ ?_)
    rw [if_pos hcond]
    exact List.mem_singleton_self _
  · intro hcond
    unfold ContextAnalyzer.patternDeadlines
    dsimp only
    refine List.mem_append_right _ ?_
    rw [if_pos hcond]
    exact List.mem_singleton_self _
  · have h1 : subStr (lowerS "Finish this week or in 2 weeks")
        "tomorrow" = false := by decide
    have h2 : (subStr (lowerS "Finish this week or in 2 weeks") "this week" ||
        subStr (lowerS "Finish this week or in 2 weeks") "end of week") =
        true := by decide
    have h3 : subStr (lowerS "Finish this week or in 2 weeks")
        "next week" = false := by decide
    have h4 : (subStr (lowerS "Finish this week or in 2 weeks") "2 weeks" ||
        subStr (lowerS "Finish this week or in 2 weeks") "two weeks") =
        true := by decide
    have h5a : subStr (lowerS "Finish this week or in 2 weeks")
        "end of month" = false := by decide
    have h5b : subStr (lowerS "Finish this week or in 2 weeks")
        "month end" = false := by decide
    have hfri : addDays ⟨2024, 12, 18⟩ (daysUntilFriday ⟨2024, 12, 18⟩) =
        ⟨2024, 12, 20⟩ := by decide
    have ha1 : addDays ⟨2024, 12, 18⟩ 1 = ⟨2024, 12, 19⟩ := by decide
    have ha3 : addDays ⟨2024, 12, 18⟩ 3 = ⟨2024, 12, 21⟩ := by decide
    have ha7 : addDays ⟨2024, 12, 18⟩ 7 = ⟨2024, 12, 25⟩ := by decide
    have ha14 : addDays ⟨2024, 12, 18⟩ 14 = ⟨2025, 1, 1⟩ := by decide
    have hpat : ContextAnalyzer.patternDeadlines ⟨2024, 12, 18⟩
        "Finish this week or in 2 weeks" =
        [{ date := ⟨2024, 12, 20⟩,
           reason := "Based on \"this week\" or \"end of week\" reference",
           confidence := 8/10, urgency_level := "medium" },
         { date := ⟨2025, 1, 1⟩, reason := "Based on \"2 weeks\" reference",
           confidence := 7/10, urgency_level := "low" }] := by
      rw [ContextAnalyzer.patternDeadlines]
      simp only [h1, h2, h3, h4, h5a, h5b, hfri, ha14]
      norm_num
    have hfb : ContextAnalyzer.backfillDeadlines ⟨2024, 12, 18⟩
        [{ date := ⟨2024, 12, 20⟩,
           reason := "Based on \"this week\" or \"end of week\" reference",
           confidence := 8/10, urgency_level := "medium" },
         { date := ⟨2025, 1, 1⟩, reason := "Based on \"2 weeks\" reference",
           confidence := 7/10, urgency_level := "low" }] =
        [{ date := ⟨2024, 12, 20⟩,
           reason := "Based on \"this week\" or \"end of week\" reference",
           confidence := 8/10, urgency_level := "medium" },
         { date := ⟨2025, 1, 1⟩, reason := "Based on \"2 weeks\" reference",
           confidence := 7/10, urgency_level := "low" },
         { date := ⟨2024, 12, 19⟩, reason := "Default immediate deadline",
           confidence := 6/10, urgency_level := "high" },
         { date := ⟨2024, 12, 21⟩, reason := "Default short-term deadline",
           confidence := 5/10, urgency_level := "medium" },
         { date := ⟨2024, 12, 25⟩, reason := "Default medium-term deadline",
           confidence := 4/10, urgency_level := "low" }] := by
      rw [ContextAnalyzer.backfillDeadlines]
      simp only [ha1, ha3, ha7]
      norm_num
    rw [ContextAnalyzer.generate_fallback_deadlines, hpat, hfb]
    norm_num [sortDescBy, List.insertionSort, List.orderedInsert]

/-- Witness for C7 (amended) at the corrected Scenario B inputs. -/
theorem c7_witness :
    (subStr (lowerS "Finish this week or in 2 weeks") "this week" ||
      subStr (lowerS "Finish this week or in 2 weeks") "end of week") = true ∧
    ({ date := addDays ⟨2024, 12, 18⟩ (daysUntilFriday ⟨2024, 12, 18⟩),
       reason := "Based on \"this week\" or \"end of week\" reference",
       confidence := 8/10, urgency_level := "medium" } : VDeadline) ∈
      ContextAnalyzer.patternDeadlines ⟨2024, 12, 18⟩
        "Finish this week or in 2 weeks" ∧
    (([] : List VDeadline).length < 3 ∧
      ∀ k ∈ ([1, 3, 7] : List Nat),
        ∃ c ∈ ContextAnalyzer.backfillDeadlines ⟨2024, 12, 18⟩ [],
          c.date = addDays ⟨2024, 12, 18⟩ k) :=
  ⟨by decide,
   (c7_fallback_deadlines_amended ⟨2024, 12, 18⟩
     "Finish this week or in 2 weeks" []).2.2.2.1 (by decide),
   by decide,
   (c7_fallback_deadlines_amended ⟨2024, 12, 18⟩
     "Finish this week or in 2 weeks" []).2.2.2.2.2.2.2.1 (by decide)⟩

/-! ### Supporting lemmas: the fully degraded pipeline run -/

theorem analyze_context_none (eng : Engine) (today : Date) :
    PipelineController.analyze_context eng today none = noContextAnalysis := rfl

theorem enhance_failing_confidence :
    (TaskEnhancer.enhance_task failingEngine
        ⟨none, "", "", ""⟩).confidence_score = 1/2 := by
  have h : (TaskEnhancer.enhance_task failingEngine
      ⟨none, "", "", ""⟩).confidence_score =
      TaskEnhancer.calculate_enhancement_confidence "" [] := rfl
  rw [h, TaskEnhancer.calculate_enhancement_confidence]
  norm_num [strLen, min_def]

theorem enhance_failing_steps :
    (TaskEnhancer.enhance_task failingEngine
        ⟨none, "", "", ""⟩).actionable_steps = [] := rfl

theorem category_failing_confidence :
    (CategorySuggester.suggest_category failingEngine).confidence_score = 0 := rfl

theorem category_failing_list :
    (CategorySuggester.suggest_category failingEngine).suggested_categories =
      [] := rfl

theorem priority_failing_score :
    (PriorityScorer.calculate_priority_score failingEngine ⟨none, "", "", ""⟩
        noContextAnalysis noContextAnalysis.workload_analysis).priority_score =
      53 := by
  have hu : PriorityScorer.evaluate_urgency failingEngine = 50 := rfl
  have hi : PriorityScorer.evaluate_importance failingEngine = 50 := rfl
  have hc : PriorityScorer.evaluate_context_relevance ⟨none, "", "", ""⟩
      noContextAnalysis = 50 := by decide
  have hw : PriorityScorer.evaluate_workload_impact
      noContextAnalysis.workload_analysis = 70 := by decide
  have hd : PriorityScorer.evaluate_dependencies ⟨none, "", "", ""⟩ = 50 := by
    rw [PriorityScorer.evaluate_dependencies, PriorityScorer.dependencyKeywordsScorer]
    have h1 : subStr (lowerS "") "after" = false := by decide
    have h2 : subStr (lowerS "") "depends on" = false := by decide
    have h3 : subStr (lowerS "") "waiting for" = false := by decide
    have h4 : subStr (lowerS "") "blocked by" = false := by decide
    have h5 : subStr (lowerS "") "requires" = false := by decide
    dsimp only
    simp only [List.foldl_cons, List.foldl_nil, h1, h2, h3, h4, h5]
    norm_num [min_def]
  have hlk1 : PriorityScorer.lookupScore
      [("urgency", (50 : ℚ)), ("importance", 50), ("context_relevance", 50),
       ("workload_impact", 70), ("dependency_factor", 50)] "urgency" =
      some 50 := by
    simp [PriorityScorer.lookupScore, List.find?]
  have hlk2 : PriorityScorer.lookupScore
      [("urgency", (50 : ℚ)), ("importance", 50), ("context_relevance", 50),
       ("workload_impact", 70), ("dependency_factor", 50)] "importance" =
      some 50 := by
    simp [PriorityScorer.lookupScore, List.find?]
  have hlk3 : PriorityScorer.lookupScore
      [("urgency", (50 : ℚ)), ("importance", 50), ("context_relevance", 50),
       ("workload_impact", 70), ("dependency_factor", 50)] "context_relevance" =
      some 50 := by
    simp [PriorityScorer.lookupScore, List.find?]
  have hlk4 : PriorityScorer.lookupScore
      [("urgency", (50 : ℚ)), ("importance", 50), ("context_relevance", 50),
       ("workload_impact", 70), ("dependency_factor", 50)] "workload_impact" =
      some 70 := by
    simp [PriorityScorer.lookupScore, List.find?]
  have hlk5 : PriorityScorer.lookupScore
      [("urgency", (50 : ℚ)), ("importance", 50), ("context_relevance", 50),
       ("workload_impact", 70), ("dependency_factor", 50)] "dependency_factor" =
      some 50 := by
    simp [PriorityScorer.lookupScore, List.find?]
  rw [PriorityScorer.calculate_priority_score]
  dsimp only
  rw [hu, hi, hc, hw, hd, PriorityScorer.calculate_weighted_score,
    PriorityScorer.scoringFactors]
  simp only [List.foldl_cons, List.foldl_nil, hlk1, hlk2, hlk3, hlk4, hlk5]
  norm_num

theorem priority_failing_level :
    (PriorityScorer.calculate_priority_score failingEngine ⟨none, "", "", ""⟩
        noContextAnalysis noContextAnalysis.workload_analysis).priority_level =
      "medium" := by
  have h : (PriorityScorer.calculate_priority_score failingEngine
      ⟨none, "", "", ""⟩ noContextAnalysis
      noContextAnalysis.workload_analysis).priority_level =
      PriorityScorer.get_priority_level
        ((PriorityScorer.calculate_priority_score failingEngine
          ⟨none, "", "", ""⟩ noContextAnalysis
          noContextAnalysis.workload_analysis).priority_score) := rfl
  rw [h, priority_failing_score, PriorityScorer.get_priority_level,
    if_neg (by norm_num), if_neg (by norm_num), if_pos (by norm_num)]

theorem estimate_time_failing :
    DeadlineSuggester.estimate_time_requirements ⟨none, "", "", ""⟩ none =
      ⟨3, 3, 1, 1, 1⟩ := by
  have hh : DeadlineSuggester.estimate_hours_from_task ⟨none, "", "", ""⟩ = 3 := by
    decide
  rw [DeadlineSuggester.estimate_time_requirements]
  dsimp only
  rw [hh]
  norm_num [round1, pyRound, TimeReq.mk.injEq]

theorem schedule_failing :
    DeadlineSuggester.analyze_schedule_availability
        noContextAnalysis.workload_analysis = ⟨"normal", 6, 0, 6, 4⟩ := by
  rw [DeadlineSuggester.analyze_schedule_availability]
  dsimp only [noContextAnalysis]
  have hwl : (if ("normal" : String) = "high" then (2 : ℚ)
      else if ("normal" : String) = "medium" then 4 else 6) = 6 := by decide
  rw [hwl]
  norm_num [min_def, max_def, Schedule.mk.injEq]

theorem dependencies_failing :
    DeadlineSuggester.analyze_dependencies ⟨none, "", "", ""⟩ noContextAnalysis =
      ⟨false, 0, 0⟩ := by
  decide

theorem totalDays_failing :
    DeadlineSuggester.totalDaysNeeded ⟨3, 3, 1, 1, 1⟩ ⟨"normal", 6, 0, 6, 4⟩
      ⟨false, 0, 0⟩ = 1 := by
  rw [DeadlineSuggester.totalDaysNeeded]
  norm_num [pyRound, max_def]

theorem deadline_failing_eval :
    (DeadlineSuggester.suggest_deadline failingEngine ⟨2024, 12, 18⟩
        ⟨none, "", "", ""⟩ noContextAnalysis
        noContextAnalysis.workload_analysis).confidence_score = 9/10 ∧
    (DeadlineSuggester.suggest_deadline failingEngine ⟨2024, 12, 18⟩
        ⟨none, "", "", ""⟩ noContextAnalysis
        noContextAnalysis.workload_analysis).suggested_deadlines.map
      (fun s => s.stype) = ["conservative", "realistic"] := by
  have hshow : (DeadlineSuggester.suggest_deadline failingEngine ⟨2024, 12, 18⟩
      ⟨none, "", "", ""⟩ noContextAnalysis
      noContextAnalysis.workload_analysis).suggested_deadlines =
      DeadlineSuggester.generate_deadline_suggestions ⟨2024, 12, 18⟩
        (DeadlineSuggester.estimate_time_requirements ⟨none, "", "", ""⟩ none)
        (DeadlineSuggester.analyze_schedule_availability
          noContextAnalysis.workload_analysis)
        (DeadlineSuggester.analyze_dependencies ⟨none, "", "", ""⟩
          noContextAnalysis) := rfl
  have hconf : (DeadlineSuggester.suggest_deadline failingEngine ⟨2024, 12, 18⟩
      ⟨none, "", "", ""⟩ noContextAnalysis
      noContextAnalysis.workload_analysis).confidence_score =
      DeadlineSuggester.calculate_deadline_confidence
        (DeadlineSuggester.generate_deadline_suggestions ⟨2024, 12, 18⟩
          (DeadlineSuggester.estimate_time_requirements ⟨none, "", "", ""⟩ none)
          (DeadlineSuggester.analyze_schedule_availability
            noContextAnalysis.workload_analysis)
          (DeadlineSuggester.analyze_dependencies ⟨none, "", "", ""⟩
            noContextAnalysis)) := rfl
  rw [hconf, hshow, estimate_time_failing, schedule_failing, dependencies_failing,
    DeadlineSuggester.generate_deadline_suggestions]
  dsimp only
  rw [totalDays_failing]
  rw [if_neg (by norm_num : ¬((1 : ℤ) > 1)), List.append_nil]
  constructor
  · rw [DeadlineSuggester.calculate_deadline_confidence]
    norm_num [min_def]
  · rw [List.map_cons, List.map_cons, List.map_nil]

theorem process_failing_overall :
    (PipelineController.process_new_task failingEngine ⟨2024, 12, 18⟩
        ⟨none, "", "", ""⟩ none).overall_confidence = 193/400 := by
  have hshow : PipelineController.process_new_task failingEngine ⟨2024, 12, 18⟩
      ⟨none, "", "", ""⟩ none =
      PipelineController.compile_results failingEngine ⟨none, "", "", ""⟩
        noContextAnalysis
        (TaskEnhancer.enhance_task failingEngine ⟨none, "", "", ""⟩)
        (CategorySuggester.suggest_category failingEngine)
        (PriorityScorer.calculate_priority_score failingEngine ⟨none, "", "", ""⟩
          noContextAnalysis noContextAnalysis.workload_analysis)
        (DeadlineSuggester.suggest_deadline failingEngine ⟨2024, 12, 18⟩
          ⟨none, "", "", ""⟩ noContextAnalysis
          noContextAnalysis.workload_analysis) := rfl
  rw [hshow, PipelineController.compile_results]
  dsimp only
  rw [enhance_failing_confidence, category_failing_confidence,
    priority_failing_score, deadline_failing_eval.1]
  norm_num

theorem suggest_deadline_conf_none (eng : Engine) (today : Date)
    (task : TaskDict) (ctx : ContextAnalysis) (wl : WorkloadOut) :
    ∀ s ∈ (DeadlineSuggester.suggest_deadline eng today task ctx
      wl).suggested_deadlines, s.confidence = none := by
  intro s hs
  have hshow : (DeadlineSuggester.suggest_deadline eng today task ctx
      wl).suggested_deadlines =
      DeadlineSuggester.generate_deadline_suggestions today
        (DeadlineSuggester.estimate_time_requirements task eng.complexityResp)
        (DeadlineSuggester.analyze_schedule_availability wl)
        (DeadlineSuggester.analyze_dependencies task ctx) := rfl
  rw [hshow, DeadlineSuggester.generate_deadline_suggestions] at hs
  dsimp only at hs
  rw [List.mem_append] at hs
  rcases hs with hs | hs
  · rw [List.mem_cons, List.mem_singleton] at hs
    rcases hs with rfl | rfl <;> rfl
  · rw [List.mem_ite_nil_right] at hs
    obtain ⟨_, hs⟩ := hs
    rw [List.mem_singleton] at hs
    subst hs
    rfl

theorem suggest_deadline_nonempty (eng : Engine) (today : Date)
    (task : TaskDict) (ctx : ContextAnalysis) (wl : WorkloadOut) :
    (DeadlineSuggester.suggest_deadline eng today task ctx
      wl).suggested_deadlines ≠ [] := by
  have hshow : (DeadlineSuggester.suggest_deadline eng today task ctx
      wl).suggested_deadlines =
      DeadlineSuggester.generate_deadline_suggestions today
        (DeadlineSuggester.estimate_time_requirements task eng.complexityResp)
        (DeadlineSuggester.analyze_schedule_availability wl)
        (DeadlineSuggester.analyze_dependencies task ctx) := rfl
  rw [hshow, DeadlineSuggester.generate_deadline_suggestions]
  simp

theorem specMean_of_conf_none (enh : EnhancementResult) (cat : CategoryResult)
    (pri : PriorityResult) (dl : DeadlineResult)
    (h : ∀ s ∈ dl.suggested_deadlines, s.confidence = none) :
    specMeanWithTopCandidate enh cat pri dl =
      (enh.confidence_score + cat.confidence_score +
        pri.priority_score / 100) / 4 := by
  rw [specMeanWithTopCandidate]
  cases hd : dl.suggested_deadlines with
  | nil => simp
  | cons c rest =>
    have hc : c.confidence = none := h c (by rw [hd]; exact List.mem_cons_self c rest)
    dsimp only
    rw [hc]
    simp

/-! ### C2 — pipeline degradation under a failing engine -/

/-- C2 counterexample: with the engine raising on every call and a valid
minimal task, the bundle's overall confidence is 193/400 = 0.4825, not
≤ 0.3, and the pipeline status is not `completed_with_errors` (the
success path always stamps `completed`). -/
theorem c2_counterexample :
    ¬ ((PipelineController.process_new_task failingEngine ⟨2024, 12, 18⟩
        ⟨none, "", "", ""⟩ none).overall_confidence ≤ 3/10) ∧
    (PipelineController.process_new_task failingEngine ⟨2024, 12, 18⟩
        ⟨none, "", "", ""⟩ none).pipeline_status ≠ "completed_with_errors" := by
  constructor
  · rw [process_failing_overall]
    norm_num
  · have h : (PipelineController.process_new_task failingEngine ⟨2024, 12, 18⟩
        ⟨none, "", "", ""⟩ none).pipeline_status = "completed" := rfl
    rw [h]
    decide

/-- C2 (amended): when the completion engine raises on every call,
`process_new_task` still returns a full bundle without propagating the
exception; the bundle's status is always the literal `"completed"` (never
`completed_with_errors`), each module degrades to its typed default
(enhancement confidence 1/2 with no actionable steps, category confidence
0 with no suggestions, priority 53 mapping to level `"medium"`, deadline
confidence 9/10), and the overall confidence is 193/400 ≈ 0.48 — not
≤ 0.3.  An invalid (non-dict) task input instead raises out of the
controller: every `except` handler itself calls `task.get`, so the
`status=failed` dictionary is dead code and the error reaches the
caller. -/
theorem c2_pipeline_degradation_amended (eng : Engine) (today : Date)
    (task : TaskDict) (cd : Option ContextData) (e : String) :
    (PipelineController.process_new_task eng today task cd).pipeline_status =
      "completed" ∧
    PipelineController.process_new_task_checked eng today (Except.error e) cd =
      Except.error e ∧
    (PipelineController.process_new_task failingEngine ⟨2024, 12, 18⟩
        ⟨none, "", "", ""⟩ none).overall_confidence = 193/400 ∧
    (PipelineController.process_new_task failingEngine ⟨2024, 12, 18⟩
        ⟨none, "", "", ""⟩
        none).detailed_analysis.task_enhancement.confidence_score = 1/2 ∧
    (PipelineController.process_new_task failingEngine ⟨2024, 12, 18⟩
        ⟨none, "", "", ""⟩
        none).detailed_analysis.task_enhancement.actionable_steps = [] ∧
    (PipelineController.process_new_task failingEngine ⟨2024, 12, 18⟩
        ⟨none, "", "", ""⟩
        none).detailed_analysis.category_suggestion.confidence_score = 0 ∧
    (PipelineController.process_new_task failingEngine ⟨2024, 12, 18⟩
        ⟨none, "", "", ""⟩
        none).detailed_analysis.category_suggestion.suggested_categories = [] ∧
    (PipelineController.process_new_task failingEngine ⟨2024, 12, 18⟩
        ⟨none, "", "", ""⟩
        none).detailed_analysis.priority_analysis.priority_score = 53 ∧
    (PipelineController.process_new_task failingEngine ⟨2024, 12, 18⟩
        ⟨none, "", "", ""⟩
        none).detailed_analysis.priority_analysis.priority_level = "medium" ∧
    (PipelineController.process_new_task failingEngine ⟨2024, 12, 18⟩
        ⟨none, "", "", ""⟩
        none).detailed_analysis.deadline_suggestion.confidence_score = 9/10 := by
  refine ⟨rfl, rfl, process_failing_overall, ?_, ?_, ?_, ?_, ?_, ?_, ?_⟩
  · exact enhance_failing_confidence
  · exact enhance_failing_steps
  · exact category_failing_confidence
  · exact category_failing_list
  · exact priority_failing_score
  · exact priority_failing_level
  · exact deadline_failing_eval.1

/-! ### C3 — the overall-confidence formula -/

/-- C3 counterexample: the bundle's overall confidence is not the mean
using the top deadline candidate's own confidence.  On the fully degraded
run the bundle's value is 193/400 (it averages in the deadline module's
`confidence_score`, 9/10), while the spec's formula gives 103/400: the
candidate dicts built by `generate_deadline_suggestions` carry no
`confidence` key at all, so the top candidate contributes 0. -/
theorem c3_counterexample :
    (PipelineController.process_new_task failingEngine ⟨2024, 12, 18⟩
        ⟨none, "", "", ""⟩ none).overall_confidence ≠
      specMeanWithTopCandidate
        (PipelineController.process_new_task failingEngine ⟨2024, 12, 18⟩
          ⟨none, "", "", ""⟩ none).detailed_analysis.task_enhancement
        (PipelineController.process_new_task failingEngine ⟨2024, 12, 18⟩
          ⟨none, "", "", ""⟩ none).detailed_analysis.category_suggestion
        (PipelineController.process_new_task failingEngine ⟨2024, 12, 18⟩
          ⟨none, "", "", ""⟩ none).detailed_analysis.priority_analysis
        (PipelineController.process_new_task failingEngine ⟨2024, 12, 18⟩
          ⟨none, "", "", ""⟩ none).detailed_analysis.deadline_suggestion := by
  have henh : (PipelineController.process_new_task failingEngine ⟨2024, 12, 18⟩
      ⟨none, "", "", ""⟩ none).detailed_analysis.task_enhancement =
      TaskEnhancer.enhance_task failingEngine ⟨none, "", "", ""⟩ := rfl
  have hcat : (PipelineController.process_new_task failingEngine ⟨2024, 12, 18⟩
      ⟨none, "", "", ""⟩ none).detailed_analysis.category_suggestion =
      CategorySuggester.suggest_category failingEngine := rfl
  have hpri : (PipelineController.process_new_task failingEngine ⟨2024, 12, 18⟩
      ⟨none, "", "", ""⟩ none).detailed_analysis.priority_analysis =
      PriorityScorer.calculate_priority_score failingEngine ⟨none, "", "", ""⟩
        noContextAnalysis noContextAnalysis.workload_analysis := rfl
  have hdl : (PipelineController.process_new_task failingEngine ⟨2024, 12, 18⟩
      ⟨none, "", "", ""⟩ none).detailed_analysis.deadline_suggestion =
      DeadlineSuggester.suggest_deadline failingEngine ⟨2024, 12, 18⟩
        ⟨none, "", "", ""⟩ noContextAnalysis
        noContextAnalysis.workload_analysis := rfl
  rw [henh, hcat, hpri, hdl, process_failing_overall,
    specMean_of_conf_none _ _ _ _
      (suggest_deadline_conf_none failingEngine ⟨2024, 12, 18⟩
        ⟨none, "", "", ""⟩ noContextAnalysis noContextAnalysis.workload_analysis),
    enhance_failing_confidence, category_failing_confidence,
    priority_failing_score]
  norm_num

/-- C3 (amended): for every set of module results, the bundle's overall
confidence is the arithmetic mean of the enhancement confidence, the
category confidence, the priority score over 100, and the deadline
module's own `confidence_score` (the score of the suggestion list as a
whole) — not the top candidate's confidence, which does not exist as a
key on the candidate dicts.  The two formulas agree only in the
no-candidate case, where `calculate_deadline_confidence` returns 0. -/
theorem c3_overall_confidence_amended (eng : Engine) (task : TaskDict)
    (ctx : ContextAnalysis) (enh : EnhancementResult) (cat : CategoryResult)
    (pri : PriorityResult) (dl : DeadlineResult) :
    (PipelineController.compile_results eng task ctx enh cat
        pri dl).overall_confidence =
      (enh.confidence_score + cat.confidence_score + pri.priority_score / 100 +
        dl.confidence_score) / 4 ∧
    DeadlineSuggester.calculate_deadline_confidence [] = 0 := by
  constructor
  · rw [PipelineController.compile_results]
    dsimp only
    simp only [List.sum_cons, List.sum_nil, List.length_cons, List.length_nil]
    push_cast
    ring
  · rfl

/-! ### C6 — batch processing -/

theorem batchLoop_map_ok (eng : Engine) (today : Date) (ctx : ContextAnalysis)
    (tasks : List TaskDict) :
    PipelineController.batchLoop eng today ctx (tasks.map Except.ok) =
      Except.ok (tasks.map (fun t =>
        PipelineController.process_single_task eng today t ctx)) := by
  induction tasks with
  | nil => rfl
  | cons t rest ih =>
    simp only [List.map_cons, PipelineController.batchLoop,
      PipelineController.process_single_task_with_context, ih]

theorem batchLoop_error (eng : Engine) (today : Date) (ctx : ContextAnalysis)
    (e : String) (post : List PipelineController.TaskInput)
    (pre : List PipelineController.TaskInput) :
    ∃ msg, PipelineController.batchLoop eng today ctx
      (pre ++ (Except.error e : PipelineController.TaskInput) :: post) =
        Except.error msg := by
  induction pre with
  | nil => exact ⟨e, rfl⟩
  | cons ti rest ih =>
    obtain ⟨msg, hm⟩ := ih
    cases ti with
    | error f => exact ⟨f, rfl⟩
    | ok t =>
      refine ⟨msg, ?_⟩
      rw [List.cons_append]
      simp only [PipelineController.batchLoop,
        PipelineController.process_single_task_with_context, hm]

/-- C6 counterexample: a batch of three tasks in which the second is
invalid (its `task.get` raises) does not yield three bundles — the
per-task handler re-raises (it calls `task.get` itself), the exception
escapes the loop, and the batch-level `except` returns the empty list,
aborting the whole batch. -/
theorem c6_counterexample :
    PipelineController.batch_process_tasks failingEngine ⟨2024, 12, 18⟩
        [Except.ok ⟨none, "", "", ""⟩, Except.error "AttributeError",
         Except.ok ⟨none, "", "", ""⟩] none = [] ∧
    (PipelineController.batch_process_tasks failingEngine ⟨2024, 12, 18⟩
        [Except.ok ⟨none, "", "", ""⟩, Except.error "AttributeError",
         Except.ok ⟨none, "", "", ""⟩] none).length ≠ 3 := by
  have h : PipelineController.batch_process_tasks failingEngine ⟨2024, 12, 18⟩
      [Except.ok ⟨none, "", "", ""⟩, Except.error "AttributeError",
       Except.ok ⟨none, "", "", ""⟩] none = [] := rfl
  exact ⟨h, by rw [h]; decide⟩

/-- C6 (amended): `batch_process_tasks` analyzes context once and reuses
it: on a list of valid task dicts it returns exactly one bundle per task
in order, each produced by the single-task path over the shared context
analysis (so an engine failure never aborts the batch — every bundle
comes back `completed`, as the three-task degraded run shows).  A single
invalid task, however, aborts the whole batch: the escaped exception makes
the outer handler return the empty list, not a per-task `failed` entry. -/
theorem c6_batch_processing_amended (eng : Engine) (today : Date)
    (tasks : List TaskDict) (cd : Option ContextData) (e : String)
    (pre post : List PipelineController.TaskInput) :
    PipelineController.batch_process_tasks eng today (tasks.map Except.ok) cd =
      tasks.map (fun t => PipelineController.process_single_task eng today t
        (PipelineController.analyze_context eng today cd)) ∧
    PipelineController.batch_process_tasks eng today
      (pre ++ (Except.error e : PipelineController.TaskInput) :: post) cd = [] ∧
    (PipelineController.batch_process_tasks failingEngine ⟨2024, 12, 18⟩
        [Except.ok ⟨none, "Task A", "", ""⟩, Except.ok ⟨none, "Task B", "", ""⟩,
         Except.ok ⟨none, "Task C", "", ""⟩] none).map
        (fun b => (b.task_title, b.pipeline_status)) =
      [("Task A", "completed"), ("Task B", "completed"),
       ("Task C", "completed")] := by
  refine ⟨?_, ?_, rfl⟩
  · simp only [PipelineController.batch_process_tasks, batchLoop_map_ok]
  · obtain ⟨msg, hm⟩ := batchLoop_error eng today
      (PipelineController.analyze_context eng today cd) e post pre
    simp only [PipelineController.batch_process_tasks, hm]
